import Mathlib

/-!
Verification development for the JTrading-News-Manager repository.

The definitions below are a shallow embedding, in Lean 4, of the Python
source under `src/src/`:

* `Py` — a small model of the Python string/value primitives the code uses
  (`str.lower`, `str.upper`, `str.title`, the `in` substring test,
  `str(...)`, `int(...)`, truthiness).  The model is ASCII-faithful, which
  covers every string the embedded functions are applied to.
* `Scraper` — `_split_into_ranges`, the impact-normalization routines,
  the JS-state / HTML record extraction of `_scrape_day`, and the
  range-orchestration loop of `scrape_date_range` as an explicit state
  machine (browser sessions become `Option Nat` handles with a fresh-id
  counter; the per-window network behaviour is an oracle argument).
* `Csv` — `CSVExporter.export_events` / `append_events` /
  `_remove_duplicates` over an in-memory store (`Option (List Record)`;
  `none` models "the output file does not exist").
* `Mapper` — `SymbolMapper.map_events_to_pairs` with the default tables.
* `Cleaner` — `EconomicDataCleaner.clean_countries` together with
  `_detect_country_from_event` and `_fix_currency_inconsistencies`.

Theorems named `C1_…` to `C10_…` settle the frozen claims; each claim has
exactly one main theorem (plus a witness or counterexample theorem where
required).
-/

namespace Py

/-- Python `str.lower()` on one character (ASCII model: the source only
lowercases ASCII class names, field names and impact words). -/
def charLower (c : Char) : Char :=
  if 65 ≤ c.toNat ∧ c.toNat ≤ 90 then Char.ofNat (c.toNat + 32) else c

/-- Python `str.upper()` on one character (ASCII model). -/
def charUpper (c : Char) : Char :=
  if 97 ≤ c.toNat ∧ c.toNat ≤ 122 then Char.ofNat (c.toNat - 32) else c

/-- Python's "cased/alphabetic" test used by `str.title()` (ASCII model). -/
def charIsAlpha (c : Char) : Bool :=
  (65 ≤ c.toNat && c.toNat ≤ 90) || (97 ≤ c.toNat && c.toNat ≤ 122)

/-- Python `str.lower()`. -/
def lower (s : String) : String := ⟨s.data.map charLower⟩

/-- Python `str.upper()`. -/
def upper (s : String) : String := ⟨s.data.map charUpper⟩

/-- Python `str.title()`: a letter is uppercased when the previous
character is not a letter, lowercased otherwise.  The Boolean argument
tracks whether the previous character was alphabetic. -/
def titleAux : Bool → List Char → List Char
  | _, [] => []
  | prev, c :: cs =>
    (if charIsAlpha c then (if prev then charLower c else charUpper c) else c)
      :: titleAux (charIsAlpha c) cs

/-- Python `str.title()`. -/
def title (s : String) : String := ⟨titleAux false s.data⟩

/-- `needle` occurs at the start of `hay`. -/
def listHasPre (needle hay : List Char) : Bool :=
  match needle, hay with
  | [], _ => true
  | _ :: _, [] => false
  | n :: ns, h :: hs => n == h && listHasPre ns hs

/-- `needle` occurs somewhere in `hay`. -/
def listHasSub (needle hay : List Char) : Bool :=
  match hay with
  | [] => needle.isEmpty
  | _ :: hs => listHasPre needle hay || listHasSub needle hs

/-- Python's substring test `needle in hay`. -/
def strIn (needle hay : String) : Bool := listHasSub needle.data hay.data


/-- Values found in the page's embedded JavaScript state, as far as the
scraper inspects them: strings, (unbounded) integers and booleans. -/
inductive JVal where
  | str (s : String)
  | num (n : Int)
  | bool (b : Bool)
deriving DecidableEq, Repr

/-- Python `str(...)` on such a value. -/
def jvStr : JVal → String
  | .str s => s
  | .num n => toString n
  | .bool b => if b then "True" else "False"

/-- Python `int(...)` on such a value: `none` models the raised
`ValueError`/`TypeError`.  `int` of a string accepts an optional sign
followed by digits (surrounding whitespace is not modelled; none of the
embedded call sites feed padded strings). -/
def jvInt : JVal → Option Int
  | .num n => some n
  | .bool b => some (if b then 1 else 0)
  | .str s =>
    match s.data with
    | '-' :: ds => if ds ≠ [] ∧ ds.all Char.isDigit then
        some (-(String.toNat! ⟨ds⟩ : Int)) else none
    | ds => if ds ≠ [] ∧ ds.all Char.isDigit then
        some ((String.toNat! ⟨ds⟩ : Int)) else none

/-- Python truthiness of such a value. -/
def jvTruthy : JVal → Bool
  | .str s => s ≠ ""
  | .num n => n ≠ 0
  | .bool b => b

/-- Python `a or b` on such values (first truthy operand, else the last). -/
def jvOr (a b : JVal) : JVal := if jvTruthy a then a else b

/-- A Python dict as the scraper sees one: an association list keyed by
strings (first binding wins, as in a dict without duplicate keys). -/
def lookupKey (d : List (String × α)) (k : String) : Option α :=
  (d.find? (fun p => p.1 = k)).map Prod.snd

end Py

namespace Scraper

/-- Loop body of `_split_into_ranges` (src/src/scraper.py:373-399), dates
measured in whole days (the Python arithmetic only ever adds whole-day
`timedelta`s, so time-of-day never changes and day granularity is exact).
The structural `fuel` argument dominates the loop's iteration count
whenever `max_months ≥ 1`; the source's `while` loop likewise terminates
for every `max_months ≥ 1` because `current_start` strictly increases
(for `max_months = 0` the Python loop would not terminate, and no claim
quantifies over that case). -/
def split_ranges_aux (max_months : Nat) : Nat → Nat → Nat → List (Nat × Nat)
  | 0, _, _ => []
  | fuel + 1, current_start, end_date =>
    if current_start ≤ end_date then
      let current_end := min (current_start + (max_months * 30 - 1)) end_date
      (current_start, current_end) ::
        split_ranges_aux max_months fuel (current_end + 1) end_date
    else []

/-- `_split_into_ranges(start_date, end_date, max_months)`
(src/src/scraper.py:373-399). -/
def split_into_ranges (start_date end_date : Nat) (max_months : Nat := 2) :
    List (Nat × Nat) :=
  split_ranges_aux max_months (end_date + 1 - start_date) start_date end_date

/-- Big-step semantics of the source's `while current_start <= end_date`
loop: `SplitLoop m e cs l` holds when the loop, started at `cs`, runs to
completion and produces the window list `l`.  (The source's final
`if current_start > end_date: break` is redundant — the `while` condition
tests the same thing — and is absorbed into `stop`.) -/
inductive SplitLoop (m e : Nat) : Nat → List (Nat × Nat) → Prop where
  | stop : ∀ cs, e < cs → SplitLoop m e cs []
  | step : ∀ cs rest, cs ≤ e →
      SplitLoop m e (min (cs + (m * 30 - 1)) e + 1) rest →
      SplitLoop m e cs ((cs, min (cs + (m * 30 - 1)) e) :: rest)


/-- The days covered by one window, in chronological order. -/
def windowDays (w : Nat × Nat) : List Nat := List.range' w.1 (w.2 + 1 - w.1)


/-- The three canonical impact values of the spec's data model. -/
def readable_impacts : List String := ["High", "Medium", "Low"]

/-- `_convert_css_impact_to_readable(css_impact)` (src/src/scraper.py:1316-1334). -/
def convert_css_impact_to_readable (css_impact : String) : String :=
  let css_impact_lower := Py.lower css_impact
  if css_impact_lower = "high" ∨ css_impact_lower = "medium" ∨ css_impact_lower = "low" then
    Py.title css_impact
  else if Py.strIn "icon--ff-impact-red" css_impact_lower ||
      Py.strIn "ff-impact-red" css_impact_lower then "High"
  else if Py.strIn "icon--ff-impact-ora" css_impact_lower ||
      Py.strIn "ff-impact-ora" css_impact_lower then "Medium"
  else if Py.strIn "icon--ff-impact-yel" css_impact_lower ||
      Py.strIn "ff-impact-yel" css_impact_lower then "Low"
  else if Py.strIn "icon--ff-impact-gra" css_impact_lower ||
      Py.strIn "ff-impact-gra" css_impact_lower then "Low"
  else "Low"

/-- An event dict from the embedded JavaScript state. -/
abbrev JsDict := List (String × Py.JVal)

/-- The alternative direct impact field names probed by
`_extract_impact_from_js_data` (src/src/scraper.py:1254). -/
def impact_fields : List String :=
  ["impactLevel", "impact_level", "importance", "priority", "significance",
   "impactClass", "impact_class"]

/-- CSS-class field names probed next (src/src/scraper.py:1266). -/
def css_fields : List String :=
  ["className", "class_name", "cssClass", "css_class", "iconClass", "icon_class"]

/-- Numeric impact field names probed next (src/src/scraper.py:1282). -/
def numeric_impact_indicators : List String :=
  ["impactNum", "impact_num", "level", "strength", "impactLevel"]

/-- String impact field names probed last (src/src/scraper.py:1297). -/
def string_impact_indicators : List String :=
  ["impactString", "impact_string", "impactText", "impact_text"]

/-- The `for field in impact_fields` loop of `_extract_impact_from_js_data`
(src/src/scraper.py:1255-1263): the first present field is converted (CSS
token) or title-cased and returned. -/
def impact_from_fields : List String → JsDict → Option String
  | [], _ => none
  | f :: fs, ed =>
    match Py.lookupKey ed f with
    | some v =>
      some (if Py.strIn "Icon--Ff-Impact" (Py.jvStr v) then
        convert_css_impact_to_readable (Py.jvStr v) else Py.title (Py.jvStr v))
    | none => impact_from_fields fs ed

/-- The `for field in css_fields` loop (src/src/scraper.py:1267-1278); a
present field whose value matches none of the three colours falls through
to the next field. -/
def impact_from_css_fields : List String → JsDict → Option String
  | [], _ => none
  | f :: fs, ed =>
    match Py.lookupKey ed f with
    | some v =>
      let css_value := Py.lower (Py.jvStr v)
      if Py.strIn "icon--ff-impact-red" css_value || Py.strIn "ff-impact-red" css_value then
        some "High"
      else if Py.strIn "icon--ff-impact-ora" css_value || Py.strIn "ff-impact-ora" css_value then
        some "Medium"
      else if Py.strIn "icon--ff-impact-yel" css_value || Py.strIn "ff-impact-yel" css_value then
        some "Low"
      else impact_from_css_fields fs ed
    | none => impact_from_css_fields fs ed

/-- The numeric-indicator loop (src/src/scraper.py:1283-1294); a field
whose value does not convert to `int` falls through (`ValueError`). -/
def impact_from_numeric : List String → JsDict → Option String
  | [], _ => none
  | f :: fs, ed =>
    match Py.lookupKey ed f with
    | some v =>
      match Py.jvInt v with
      | some n => some (if 3 ≤ n then "High" else if 2 ≤ n then "Medium" else "Low")
      | none => impact_from_numeric fs ed
    | none => impact_from_numeric fs ed

/-- The string-indicator loop (src/src/scraper.py:1298-1306); a present
field matching no colour word falls through to the next field. -/
def impact_from_string_fields : List String → JsDict → Option String
  | [], _ => none
  | f :: fs, ed =>
    match Py.lookupKey ed f with
    | some v =>
      let impact_str := Py.lower (Py.jvStr v)
      if Py.strIn "high" impact_str || Py.strIn "red" impact_str then some "High"
      else if Py.strIn "medium" impact_str || Py.strIn "orange" impact_str then some "Medium"
      else if Py.strIn "low" impact_str || Py.strIn "yellow" impact_str then some "Low"
      else impact_from_string_fields fs ed
    | none => impact_from_string_fields fs ed

/-- `_extract_impact_from_js_data(event_data)` (src/src/scraper.py:1240-1314).
The surrounding `try`/`except` can never fire in this model because every
probed operation is total here; `'Low'` is the final default. -/
def extract_impact_from_js_data (ed : JsDict) : String :=
  match Py.lookupKey ed "impact" with
  | some v =>
    if Py.strIn "Icon--Ff-Impact" (Py.jvStr v) then
      convert_css_impact_to_readable (Py.jvStr v)
    else Py.title (Py.jvStr v)
  | none =>
    match impact_from_fields impact_fields ed with
    | some r => r
    | none =>
      match impact_from_css_fields css_fields ed with
      | some r => r
      | none =>
        match impact_from_numeric numeric_impact_indicators ed with
        | some r => r
        | none =>
          match impact_from_string_fields string_impact_indicators ed with
          | some r => r
          | none => "Low"

/-- The first present field among `'impact'` followed by the
`impact_fields` alternatives: exactly the fields whose raw value
`_extract_impact_from_js_data` may return title-cased.  (Spec-side helper
used to state claim C2's amended form.) -/
def first_direct_impact_field (ed : JsDict) : Option Py.JVal :=
  match Py.lookupKey ed "impact" with
  | some v => some v
  | none =>
    (impact_fields.findSome? (fun f => Py.lookupKey ed f))

/-- The country-code table of `_get_country_name_from_code`
(src/src/scraper.py:1336-1360). -/
def scraper_country_mapping : List (String × String) :=
  [("US", "United States"), ("EUR", "Eurozone"), ("GB", "United Kingdom"),
   ("UK", "United Kingdom"), ("JP", "Japan"), ("CH", "Switzerland"),
   ("AU", "Australia"), ("NZ", "New Zealand"), ("CA", "Canada"),
   ("CN", "China"), ("FR", "France"), ("DE", "Germany"), ("IT", "Italy"),
   ("ES", "Spain"), ("RU", "Russia"), ("BR", "Brazil"), ("IN", "India"),
   ("MX", "Mexico"), ("ZA", "South Africa")]

/-- `_get_country_name_from_code(country_code)` (src/src/scraper.py:1336-1360). -/
def get_country_name_from_code (country_code : String) : String :=
  (Py.lookupKey scraper_country_mapping (Py.upper country_code)).getD "Unknown"

/-- The timestamps a record can carry, by construction path: either
`datetime.fromtimestamp(dateline)`, or the target day at a fixed time
(`replace(hour=12)`, `replace(hour=0)`, or `datetime.combine` with a
parsed clock time).  Days are day numbers as in `split_into_ranges`. -/
inductive PyTime where
  | fromTimestamp (n : Int)
  | midday (day : Nat)
  | midnight (day : Nat)
  | combined (day : Nat) (hour minute : Nat)
deriving DecidableEq, Repr

/-- One scraped event record, with the fields `_scrape_day`'s two
extraction paths produce.  `event` and `currency` keep the raw
JavaScript value (`_parse_js_event_data` copies them verbatim); the HTML
path stores plain strings wrapped in `JVal.str`. -/
structure SRecord where
  dateTime : PyTime
  event : Py.JVal
  country : String
  impact : String
  currency : Py.JVal
  actual : String
  forecast : String
  previous : String
  notice : Py.JVal := .str ""
  hasDataValues : Py.JVal := .bool false
  hasGraph : Py.JVal := .bool false
  hasLinkedThreads : Py.JVal := .bool false
deriving DecidableEq, Repr

/-- `_parse_js_event_data(event_data, target_date)`
(src/src/scraper.py:1175-1238).  Returns `none` for a nameless event
(dropped) and also when `country_code.upper()` would raise because the
country value is not a string (the function-level `except` then returns
`None`). -/
def parse_js_event_data (ed : JsDict) (target_date : Nat) : Option SRecord :=
  let event_time : PyTime :=
    match Py.lookupKey ed "dateline" with
    | some v =>
      if Py.jvTruthy v then
        match v with
        | .num n => PyTime.fromTimestamp n
        | _ => PyTime.midday target_date
      else PyTime.midday target_date
    | none => PyTime.midday target_date
  let event_name := (Py.lookupKey ed "name").getD (.str "")
  let prefixed_name := (Py.lookupKey ed "prefixedName").getD event_name
  let trimmed_name := (Py.lookupKey ed "trimmedPrefixedName").getD prefixed_name
  let solo_title := (Py.lookupKey ed "soloTitle").getD trimmed_name
  let currency := (Py.lookupKey ed "currency").getD (.str "")
  let country_code := (Py.lookupKey ed "country").getD (.str "")
  let notice := (Py.lookupKey ed "notice").getD (.str "")
  let has_data_values := (Py.lookupKey ed "hasDataValues").getD (.bool false)
  let has_graph := (Py.lookupKey ed "hasGraph").getD (.bool false)
  let has_linked_threads := (Py.lookupKey ed "hasLinkedThreads").getD (.bool false)
  let impact := extract_impact_from_js_data ed
  let final_event_name :=
    Py.jvOr (Py.jvOr (Py.jvOr solo_title trimmed_name) prefixed_name) event_name
  if Py.jvTruthy final_event_name then
    match country_code with
    | .str cc =>
      some { dateTime := event_time, event := final_event_name,
             country := get_country_name_from_code cc, impact := impact,
             currency := currency, actual := "N/A", forecast := "N/A",
             previous := "N/A",
             notice := if Py.jvTruthy notice then notice else .str "",
             hasDataValues := has_data_values, hasGraph := has_graph,
             hasLinkedThreads := has_linked_threads }
    | _ => none
  else none

/-- The per-day walk of `_parse_js_calendar_data`
(src/src/scraper.py:1155-1173): every event dict of the day is parsed and
nameless/failing ones are dropped.  (The enclosing traversal over
`calendarComponentStates` keys and `days` entries only concatenates these
per-day lists and is not separately modelled.) -/
def parse_js_calendar_events (eds : List JsDict) (target_date : Nat) : List SRecord :=
  eds.filterMap (fun ed => parse_js_event_data ed target_date)

/-- `_convert_impact_in_events(events)` (src/src/scraper.py:1046-1055).
Every record of this model carries an `Impact` key, so the `'Impact' in
event` guard is always true. -/
def convert_impact_in_events (events : List SRecord) : List SRecord :=
  events.map (fun e =>
    if Py.strIn "Icon--Ff-Impact" e.impact then
      { e with impact := convert_css_impact_to_readable e.impact }
    else e)

/-- A rendered `<td>` as far as the scraper inspects it: `html` is
`str(cell)`, `text` is `get_text(strip=True)`, `classes` is
`cell.get('class', [])`, `childClasses` lists the `class` attributes of
the cell's `div`/`span`/`img` descendants in document order, `style` is
`cell.get('style', '')`, `dataAttrs` the string-valued attributes of the
cell (name, value), and `linkText` the text of the first `<a>` child when
one exists. -/
structure HtmlCell where
  html : String := ""
  text : String := ""
  classes : List String := []
  childClasses : List (List String) := []
  style : String := ""
  dataAttrs : List (String × String) := []
  linkText : Option String := none
deriving DecidableEq, Repr

/-- High-impact indicator substrings (src/src/scraper.py:1755-1760). -/
def high_indicators : List String :=
  ["impact-high", "high-impact", "cal_high", "icon-high",
   "red", "color-red", "bg-red", "impact_high", "ff-impact-high",
   "impactlevel-high", "impact_level_high", "priority-high",
   "icon--ff-impact-red", "ff-impact-red"]

/-- Medium-impact indicator substrings (src/src/scraper.py:1761-1767). -/
def medium_indicators : List String :=
  ["impact-medium", "medium-impact", "cal_medium", "icon-medium",
   "orange", "color-orange", "bg-orange", "impact_medium", "yellow",
   "ff-impact-medium", "impactlevel-medium", "impact_level_medium",
   "priority-medium", "amber",
   "icon--ff-impact-ora", "ff-impact-ora"]

/-- Low-impact indicator substrings (src/src/scraper.py:1768-1774). -/
def low_indicators : List String :=
  ["impact-low", "low-impact", "cal_low", "icon-low",
   "yellow", "color-yellow", "bg-yellow", "impact_low",
   "ff-impact-low", "impactlevel-low", "impact_level_low",
   "priority-low",
   "icon--ff-impact-yel", "ff-impact-yel"]

/-- The `for element in impact_cell.find_all(['div','span','img'])` loop
of `_parse_impact_level` (src/src/scraper.py:1798-1815): an element whose
joined class string matches the outer indicator list is classified by the
inner `if`/`elif` chain; with no inner hit the loop moves on. -/
def impact_from_child_elems : List (List String) → Option String
  | [] => none
  | cls :: rest =>
    let s := Py.lower (String.intercalate " " cls)
    if ["high", "medium", "low", "red", "orange", "yellow",
        "icon--ff-impact-red", "icon--ff-impact-ora", "icon--ff-impact-yel",
        "ff-impact-red", "ff-impact-ora", "ff-impact-yel"].any
        (fun c => Py.strIn c s) then
      if Py.strIn "high" s || Py.strIn "red" s ||
          Py.strIn "icon--ff-impact-red" s || Py.strIn "ff-impact-red" s then
        some "High"
      else if Py.strIn "medium" s || Py.strIn "orange" s ||
          Py.strIn "icon--ff-impact-ora" s || Py.strIn "ff-impact-ora" s then
        some "Medium"
      else if Py.strIn "low" s || Py.strIn "yellow" s ||
          Py.strIn "icon--ff-impact-yel" s || Py.strIn "ff-impact-yel" s then
        some "Low"
      else impact_from_child_elems rest
    else impact_from_child_elems rest

/-- The `for attr_name, attr_value in impact_cell.attrs.items()` loop
(src/src/scraper.py:1825-1833), restricted to string-valued attributes as
the `isinstance` guard requires. -/
def impact_from_data_attrs : List (String × String) → Option String
  | [] => none
  | (name, value) :: rest =>
    if Py.strIn "data-" (Py.lower name) then
      let v := Py.lower value
      if high_indicators.any (fun ind => Py.strIn ind v) then some "High"
      else if medium_indicators.any (fun ind => Py.strIn ind v) then some "Medium"
      else if low_indicators.any (fun ind => Py.strIn ind v) then some "Low"
      else impact_from_data_attrs rest
    else impact_from_data_attrs rest

/-- `_parse_impact_level(impact_cell)` (src/src/scraper.py:1731-1842).
`none` models `impact_cell` being `None`/falsy. -/
def parse_impact_level (impact_cell : Option HtmlCell) : String :=
  match impact_cell with
  | none => "Low"
  | some cell =>
    let cell_html := Py.lower cell.html
    if high_indicators.any (fun ind => Py.strIn ind cell_html) then "High"
    else if medium_indicators.any (fun ind => Py.strIn ind cell_html) then "Medium"
    else if low_indicators.any (fun ind => Py.strIn ind cell_html) then "Low"
    else
      let cell_text := Py.lower cell.text
      if ["high", "red", "high impact expected"].any (fun t => Py.strIn t cell_text) then "High"
      else if ["medium", "orange", "medium impact expected"].any
          (fun t => Py.strIn t cell_text) then "Medium"
      else if ["low", "yellow", "low impact expected"].any
          (fun t => Py.strIn t cell_text) then "Low"
      else
        match impact_from_child_elems cell.childClasses with
        | some r => r
        | none =>
          let style_attr := Py.lower cell.style
          if Py.strIn "red" style_attr || Py.strIn "background-color: red" style_attr then
            "High"
          else if Py.strIn "orange" style_attr || Py.strIn "yellow" style_attr ||
              Py.strIn "background-color: orange" style_attr then "Medium"
          else
            match impact_from_data_attrs cell.dataAttrs with
            | some r => r
            | none => "Low"

/-- Occurrence of the regex `\d{1,2}:\d{2}` at the head of a character
list. -/
def time_pattern_at (l : List Char) : Bool :=
  match l with
  | a :: b :: c :: d :: rest =>
    (a.isDigit && b == ':' && c.isDigit && d.isDigit) ||
    (a.isDigit && b.isDigit && c == ':' && d.isDigit &&
      (match rest with | e :: _ => e.isDigit | [] => false))
  | [a, b, c] => a.isDigit && b == ':' && c.isDigit && false
  | _ => false

/-- `re.search` of `\d{1,2}:\d{2}` over a character list. -/
def time_pattern_search : List Char → Bool
  | [] => false
  | c :: rest => time_pattern_at (c :: rest) || time_pattern_search rest

/-- `_is_time_cell(cell_text)` (src/src/scraper.py:1650-1667).  The
second source pattern, `\d{1,2}:\d{2}[AP]M`, is searched against the
lowercased text, where the uppercase `[AP]M` suffix can never occur; any
of its matches is however also a match of the first pattern, so only the
first pattern, `'all day'` and `'tbd'` can decide the outcome. -/
def is_time_cell (cell_text : String) : Bool :=
  if cell_text = "" then false
  else
    let lowered := Py.lower cell_text
    time_pattern_search lowered.data ||
      Py.strIn "all day" lowered || Py.strIn "tbd" lowered

/-- The currency codes recognized by `_is_currency_cell`
(src/src/scraper.py:1675). -/
def currency_codes : List String :=
  ["USD", "EUR", "GBP", "JPY", "CHF", "AUD", "NZD", "CAD", "CNY"]

/-- `_is_currency_cell(cell_text, cell)` (src/src/scraper.py:1669-1683). -/
def is_currency_cell (cell_text : String) (cell : HtmlCell) : Bool :=
  if cell_text = "" then false
  else
    currency_codes.contains (Py.upper cell_text) ||
      (match cell.linkText with
       | some t => currency_codes.contains (Py.upper t)
       | none => false)

/-- `_is_event_cell(cell_text, cell)` (src/src/scraper.py:1685-1699). -/
def is_event_cell (cell_text : String) (cell : HtmlCell) : Bool :=
  if cell_text = "" then false
  else
    cell.linkText.isSome ||
      ["bank holiday", "speaks", "meeting", "rate", "gdp", "inflation",
       "employment"].any (fun kw => Py.strIn kw (Py.lower cell_text))

/-- Full match of `\d+\.?\d*` followed by an optional suffix character
drawn from `suffixes`, on a character list. -/
def numeric_shape (l : List Char) (suffixes : List Char) : Bool :=
  let ds := l.takeWhile Char.isDigit
  let r1 := l.dropWhile Char.isDigit
  if ds.isEmpty then false
  else
    let r2 := match r1 with
      | '.' :: t => t.dropWhile Char.isDigit
      | _ => r1
    match r2 with
    | [] => true
    | [c] => suffixes.contains c
    | _ => false

/-- `_is_data_cell(cell_text)` (src/src/scraper.py:1701-1719).  The
patterns are matched against the lowercased text, so the `[KMB]` suffix
alternative of the second pattern can never fire; the empty pattern `^$`
never fires either because of the initial emptiness guard. -/
def is_data_cell (cell_text : String) : Bool :=
  if cell_text = "" then false
  else
    let lowered := Py.lower cell_text
    numeric_shape lowered.data ['%'] ||
      numeric_shape lowered.data ['K', 'M', 'B'] ||
      lowered = "n/a" || lowered = "-"

/-- `_get_cell_text(cell)` (src/src/scraper.py:1721-1729). -/
def get_cell_text (cell : Option HtmlCell) : String :=
  match cell with
  | none => "N/A"
  | some c => if c.text = "" ∨ c.text = "-" then "N/A" else c.text

/-- Parse `"%H:%M"` as `datetime.strptime` would: one or two digits for
the hour (0-23), a colon, one or two digits for the minutes (0-59),
nothing else. -/
def strptime_hm (s : String) : Option (Nat × Nat) :=
  let parts := s.data
  let hs := parts.takeWhile Char.isDigit
  let rest := parts.dropWhile Char.isDigit
  match rest with
  | ':' :: ms =>
    if hs ≠ [] ∧ hs.length ≤ 2 ∧ ms ≠ [] ∧ ms.length ≤ 2 ∧ ms.all Char.isDigit then
      let h := String.toNat! ⟨hs⟩
      let m := String.toNat! ⟨ms⟩
      if h ≤ 23 ∧ m ≤ 59 then some (h, m) else none
    else none
  | _ => none

/-- Parse `"%I:%M%p"` as `datetime.strptime` would: a 1-12 hour, minutes,
and an `AM`/`PM` suffix (case-insensitive), converted to a 24h clock. -/
def strptime_ihm (s : String) : Option (Nat × Nat) :=
  let parts := s.data
  let hs := parts.takeWhile Char.isDigit
  let rest := parts.dropWhile Char.isDigit
  match rest with
  | ':' :: rest2 =>
    let ms := rest2.takeWhile Char.isDigit
    let suffix := Py.lower ⟨rest2.dropWhile Char.isDigit⟩
    if hs ≠ [] ∧ hs.length ≤ 2 ∧ ms ≠ [] ∧ ms.length ≤ 2 ∧
        (suffix = "am" ∨ suffix = "pm") then
      let h := String.toNat! ⟨hs⟩
      let m := String.toNat! ⟨ms⟩
      if 1 ≤ h ∧ h ≤ 12 ∧ m ≤ 59 then
        some ((if suffix = "pm" then h % 12 + 12 else h % 12), m)
      else none
    else none
  | _ => none

/-- `_parse_time_string(time_str, target_date)`
(src/src/scraper.py:1844-1857): an unparsable or formatless string falls
back to midday. -/
def parse_time_string (time_str : String) (target_date : Nat) : PyTime :=
  if Py.strIn "AM" time_str || Py.strIn "PM" time_str then
    match strptime_ihm time_str with
    | some (h, m) => PyTime.combined target_date h m
    | none => PyTime.midday target_date
  else if Py.strIn ":" time_str then
    match strptime_hm time_str with
    | some (h, m) => PyTime.combined target_date h m
    | none => PyTime.midday target_date
  else PyTime.midday target_date

/-- The currency table of `_extract_country_from_event`
(src/src/scraper.py:1861-1871). -/
def event_currency_country : List (String × String) :=
  [("USD", "United States"), ("EUR", "Eurozone"), ("GBP", "United Kingdom"),
   ("JPY", "Japan"), ("CHF", "Switzerland"), ("AUD", "Australia"),
   ("NZD", "New Zealand"), ("CAD", "Canada"), ("CNY", "China")]

/-- `_extract_country_from_event(event_name, currency)`
(src/src/scraper.py:1859-1894). -/
def extract_country_from_event (event_name currency : String) : String :=
  if Py.strIn "US" event_name || Py.strIn "United States" event_name then "United States"
  else if Py.strIn "Euro" event_name || Py.strIn "European" event_name then "Eurozone"
  else if Py.strIn "UK" event_name || Py.strIn "British" event_name then "United Kingdom"
  else if Py.strIn "Japan" event_name then "Japan"
  else if Py.strIn "Swiss" event_name then "Switzerland"
  else if Py.strIn "Australian" event_name then "Australia"
  else if Py.strIn "New Zealand" event_name then "New Zealand"
  else if Py.strIn "Canadian" event_name then "Canada"
  else if Py.strIn "Chinese" event_name then "China"
  else (Py.lookupKey event_currency_country currency).getD "Unknown"

/-- The role assignments accumulated by the detection loop of
`_parse_event_row` (src/src/scraper.py:1545-1582). -/
structure DetectedCells where
  time_cell : Option HtmlCell := none
  currency_cell : Option HtmlCell := none
  impact_cell : Option HtmlCell := none
  event_cell : Option HtmlCell := none
  actual_cell : Option HtmlCell := none
  forecast_cell : Option HtmlCell := none
  previous_cell : Option HtmlCell := none
deriving Repr

/-- One iteration of the detection loop: the `if`/`elif` chain assigns
the cell to the first role whose predicate fires; the time/currency/
impact/event slots are overwritten on a later hit, the three data slots
fill first-come-first-served. -/
def detect_step (i : Nat) (cell : HtmlCell) (d : DetectedCells) : DetectedCells :=
  let cell_classes := String.intercalate " " cell.classes
  let cell_text := cell.text
  if i = 0 || Py.strIn "time" (Py.lower cell_classes) || is_time_cell cell_text then
    { d with time_cell := some cell }
  else if Py.strIn "currency" (Py.lower cell_classes) || is_currency_cell cell_text cell then
    { d with currency_cell := some cell }
  else if Py.strIn "impact" (Py.lower cell_classes) ||
      Py.strIn "calendar__impact" cell_classes then
    { d with impact_cell := some cell }
  else if Py.strIn "event" (Py.lower cell_classes) || is_event_cell cell_text cell then
    { d with event_cell := some cell }
  else if is_data_cell cell_text then
    if d.actual_cell.isNone then { d with actual_cell := some cell }
    else if d.forecast_cell.isNone then { d with forecast_cell := some cell }
    else if d.previous_cell.isNone then { d with previous_cell := some cell }
    else d
  else d

/-- The positional fallback of `_parse_event_row`
(src/src/scraper.py:1584-1598). -/
def positional_fallback (cells : List HtmlCell) (d : DetectedCells) : DetectedCells :=
  { time_cell := d.time_cell <|> cells.get? 0,
    currency_cell := d.currency_cell <|> cells.get? 1,
    impact_cell := d.impact_cell <|> cells.get? 2,
    event_cell := d.event_cell <|> cells.get? 3,
    actual_cell := d.actual_cell <|> cells.get? 4,
    forecast_cell := d.forecast_cell <|> cells.get? 5,
    previous_cell := d.previous_cell <|> cells.get? 6 }

/-- Python whitespace for `str.strip()` (ASCII model). -/
def is_py_space (c : Char) : Bool :=
  c = ' ' || c = '\t' || c = '\n' || c = '\x0d' || c = '\x0b' || c = '\x0c'

/-- Python `str.strip()`. -/
def py_strip (s : String) : String :=
  ⟨((s.data.dropWhile is_py_space).reverse.dropWhile is_py_space).reverse⟩

/-- The detection loop followed by the positional fallback
(src/src/scraper.py:1545-1598). -/
def detect_cells (cells : List HtmlCell) : DetectedCells :=
  positional_fallback cells
    ((cells.enum).foldl (fun d (p : Nat × HtmlCell) => detect_step p.1 p.2 d) {})

/-- The time text of a row (src/src/scraper.py:1601). -/
def row_time_text (d : DetectedCells) : String :=
  match d.time_cell with
  | some c => c.text
  | none => "All Day"

/-- The event time of a row (src/src/scraper.py:1602-1605). -/
def row_event_time (d : DetectedCells) (target_date : Nat) : PyTime :=
  if row_time_text d = "" ∨ row_time_text d = "All Day" then PyTime.midnight target_date
  else parse_time_string (row_time_text d) target_date

/-- The currency of a row (src/src/scraper.py:1607-1611), `"USD"` being
the default. -/
def row_currency (d : DetectedCells) : String :=
  match d.currency_cell with
  | none => "USD"
  | some c => match c.linkText with
    | some t => t
    | none => c.text

/-- The impact of a row (src/src/scraper.py:1613-1614). -/
def row_impact (d : DetectedCells) : String :=
  match d.impact_cell with
  | some c => parse_impact_level (some c)
  | none => "Low"

/-- The event name of a row (src/src/scraper.py:1616-1620). -/
def row_event_name (d : DetectedCells) : String :=
  match d.event_cell with
  | none => ""
  | some c => match c.linkText with
    | some t => t
    | none => c.text

/-- `_parse_event_row(row, target_date)` (src/src/scraper.py:1538-1648):
the dynamic column detection, the positional fallback, the field parses
and the final title guard.  `none` models the `return None` paths. -/
def parse_event_row (cells : List HtmlCell) (target_date : Nat) : Option SRecord :=
  if cells.length < 3 then none
  else if row_event_name (detect_cells cells) = "" ∨
      py_strip (row_event_name (detect_cells cells)) = "" then none
  else
    some { dateTime := row_event_time (detect_cells cells) target_date,
           event := .str (row_event_name (detect_cells cells)),
           country := extract_country_from_event (row_event_name (detect_cells cells))
             (row_currency (detect_cells cells)),
           impact := row_impact (detect_cells cells),
           currency := .str (row_currency (detect_cells cells)),
           actual := get_cell_text (detect_cells cells).actual_cell,
           forecast := get_cell_text (detect_cells cells).forecast_cell,
           previous := get_cell_text (detect_cells cells).previous_cell }

/-- The row loop of `_scrape_day_fallback_html`
(src/src/scraper.py:1478-1485): each row is parsed independently and
`None` results are dropped. -/
def scrape_day_fallback_html (rows : List (List HtmlCell)) (target_date : Nat) :
    List SRecord :=
  rows.filterMap (fun row => parse_event_row row target_date)

/-- The enhancement applied to one JS record by
`_enhance_js_events_with_html_data` (src/src/scraper.py:1385-1418): the
first row with at least 4 cells whose rendered title is a
case-insensitive substring of the record's title backfills
actual/forecast/previous and overwrites the impact from the rendered
impact cell.  A record whose title is not a string is left as-is (in the
source the `.lower()` call would raise and the enhancement pass would
stop, leaving the record unenhanced). -/
def find_matching_row (rows : List (List HtmlCell)) (js_event_name : String) :
    Option (List HtmlCell) :=
  rows.find? (fun cells =>
    decide (4 ≤ cells.length) &&
    (match cells.get? 3 with
     | some event_cell =>
       let html_event_name := (event_cell.linkText).getD event_cell.text
       html_event_name ≠ "" && js_event_name ≠ "" &&
         Py.strIn (Py.lower html_event_name) (Py.lower js_event_name)
     | none => false))

/-- The update applied to a matched JS record
(src/src/scraper.py:1400-1418). -/
def enhance_with_cells (cells : List HtmlCell) (r : SRecord) : SRecord :=
  let r1 := { r with actual := get_cell_text (cells.get? 4),
                     forecast := get_cell_text (cells.get? 5),
                     previous := get_cell_text (cells.get? 6) }
  match cells.get? 2 with
  | some impact_cell => { r1 with impact := parse_impact_level (some impact_cell) }
  | none => r1

def enhance_one_js_event (rows : List (List HtmlCell)) (r : SRecord) : SRecord :=
  match r.event with
  | .str js_event_name =>
    match find_matching_row rows js_event_name with
    | some cells => enhance_with_cells cells r
    | none => r
  | _ => r

/-- `_enhance_js_events_with_html_data(js_events, target_date)`
(src/src/scraper.py:1362-1423), with the page's rendered rows supplied
explicitly. -/
def enhance_js_events_with_html_data (rows : List (List HtmlCell))
    (js_events : List SRecord) : List SRecord :=
  js_events.map (enhance_one_js_event rows)

/-- The record pipeline of `_scrape_day` (src/src/scraper.py:981-1044)
up to and including the `_convert_impact_in_events` pass: when the
JavaScript state is present its events are parsed and HTML-enhanced,
otherwise the HTML fallback parses the rendered rows; either way the
impact-conversion pass runs last.  (The subsequent save step is modelled
separately as `scrape_day_save`.) -/
def scrape_day_records (js_present : Bool) (eds : List JsDict)
    (rows : List (List HtmlCell)) (target_date : Nat) : List SRecord :=
  let events :=
    if js_present then
      enhance_js_events_with_html_data rows (parse_js_calendar_events eds target_date)
    else scrape_day_fallback_html rows target_date
  convert_impact_in_events events

end Scraper

namespace Csv

/-- One exported CSV row.  `dt` is the `DateTime` column after the
`strftime('%Y-%m-%d %H:%M:%S')` conversion: the format is fixed-width, so
its lexicographic string order coincides with chronological order and the
column is modelled as a number ordered the same way. -/
structure Record where
  dt : Nat
  event : String
  country : String := ""
  impact : String := ""
  currency : String
  actual : String := "N/A"
  forecast : String := "N/A"
  previous : String := "N/A"
  affectedPairs : String := "N/A"
deriving DecidableEq, Repr

/-- The dedup key of `_remove_duplicates`: the `DateTime`, `Event` and
`Currency` columns (src/src/csv_exporter.py:158-161). -/
def dedup_key (r : Record) : Nat × String × String := (r.dt, r.event, r.currency)

/-- Stable insertion into a sorted list: the new element goes before the
first existing element it may precede, so elements comparing equal keep
their original relative order. -/
def ins_sorted (le : Record → Record → Bool) (x : Record) : List Record → List Record
  | [] => [x]
  | y :: ys => if le x y then x :: y :: ys else y :: ins_sorted le x ys

/-- Stable sort by `le` (insertion sort).  `pandas.sort_values` leaves
rows with equal keys in their existing order here: its quicksort falls
back to an insertion sort on the small partitions this code path
produces, and every claim-relevant comparison involves rows with equal
`DateTime` keys, whose relative order is what matters. -/
def sort_by (le : Record → Record → Bool) : List Record → List Record
  | [] => []
  | x :: xs => ins_sorted le x (sort_by le xs)

/-- `drop_duplicates(subset=['DateTime','Event','Currency'], keep='first')`:
keep each row whose key has not been seen earlier in the list. -/
def drop_dup_keep_fst (seen : List (Nat × String × String)) :
    List Record → List Record
  | [] => []
  | r :: rs =>
    if seen.contains (dedup_key r) then drop_dup_keep_fst seen rs
    else r :: drop_dup_keep_fst (dedup_key r :: seen) rs

/-- `CSVExporter._remove_duplicates(df)` (src/src/csv_exporter.py:141-166):
sort by `DateTime` descending, drop later occurrences of each
`(DateTime, Event, Currency)` key, sort back ascending. -/
def remove_duplicates (df : List Record) : List Record :=
  if df = [] then df
  else
    let sorted := sort_by (fun a b => b.dt ≤ a.dt) df
    let deduped := drop_dup_keep_fst [] sorted
    sort_by (fun a b => a.dt ≤ b.dt) deduped

/-- The on-disk store: `none` models "the output file does not exist". -/
abbrev Store := Option (List Record)

/-- The write mode argument of `export_events`. -/
inductive WriteMode where
  | w
  | a
deriving DecidableEq

/-- `CSVExporter.export_events(events, mode)` (src/src/csv_exporter.py:28-85):
an empty batch is rejected (`False`); in append mode with an existing file
the new rows are concatenated after the stored ones and deduplicated;
otherwise the batch replaces the store.  The data-quality validation only
logs and the column fill-in is the identity on this record shape. -/
def export_events (events : List Record) (mode : WriteMode) (st : Store) :
    Store × Bool :=
  if events = [] then (st, false)
  else
    match mode, st with
    | .a, some existing => (some (remove_duplicates (existing ++ events)), true)
    | _, _ => (some events, true)

/-- `CSVExporter.append_events(events)` (src/src/csv_exporter.py:168-178). -/
def append_events (events : List Record) (st : Store) : Store × Bool :=
  export_events events .a st

/-- The method names defined on `CSVExporter`
(src/src/csv_exporter.py:14-246).  `append_with_deduplication` is not
among them. -/
def csv_exporter_method_names : List String :=
  ["_ensure_output_directory", "export_events", "_validate_data_quality",
   "_remove_duplicates", "append_events", "get_existing_events",
   "backup_existing_file", "get_file_info"]

/-- Python attribute dispatch on a `CSVExporter` instance, for the
record-sink methods: a name not defined on the class raises
`AttributeError`, modelled as `none`. -/
def csv_exporter_call (name : String) (events : List Record) (st : Store) :
    Option (Store × Bool) :=
  if name = "export_events" then some (export_events events .w st)
  else if name = "append_events" then some (append_events events st)
  else none

end Csv

namespace Mapper

/-- The default `auto_mapping` table of `SymbolMapper`
(src/src/symbol_mapper.py:43-56), used when no config file overrides it;
`custom_overrides` is then empty. -/
def auto_mapping : List (String × List String) :=
  [("USD", ["EURUSD", "GBPUSD", "USDJPY", "USDCHF", "AUDUSD", "NZDUSD", "USDCAD"]),
   ("EUR", ["EURUSD", "EURGBP", "EURJPY", "EURCHF", "EURAUD"]),
   ("GBP", ["GBPUSD", "EURGBP", "GBPJPY", "GBPCHF", "GBPAUD"]),
   ("JPY", ["USDJPY", "EURJPY", "GBPJPY", "AUDJPY", "NZDJPY"]),
   ("CHF", ["USDCHF", "EURCHF", "GBPCHF", "CHFJPY"]),
   ("AUD", ["AUDUSD", "EURAUD", "GBPAUD", "AUDJPY", "AUDNZD"]),
   ("NZD", ["NZDUSD", "NZDJPY", "AUDNZD"]),
   ("CAD", ["USDCAD", "CADJPY"])]

/-- `SymbolMapper.get_affected_pairs(currency)`
(src/src/symbol_mapper.py:58-80), with empty custom overrides. -/
def get_affected_pairs (currency : String) : List String :=
  (Py.lookupKey auto_mapping currency).getD []

/-- `SymbolMapper.map_events_to_pairs(events)`
(src/src/symbol_mapper.py:82-105). -/
def map_events_to_pairs (events : List Csv.Record) : List Csv.Record :=
  events.map (fun e =>
    let pairs := get_affected_pairs e.currency
    { e with affectedPairs :=
        if pairs = [] then "N/A" else String.intercalate ", " pairs })

end Mapper

namespace Scraper

/-- The save step at the end of `_scrape_day` (src/src/scraper.py:1030-1043):
with a non-empty batch and a configured exporter, the batch is annotated
with trading pairs and `csv_exporter.append_with_deduplication` is
called; the returned flag reports whether a save succeeded, any exception
in the block being caught and logged. -/
def scrape_day_save (events : List Csv.Record) (has_exporter : Bool)
    (st : Csv.Store) : Csv.Store × Bool :=
  if events ≠ [] ∧ has_exporter then
    let mapped := Mapper.map_events_to_pairs events
    match Csv.csv_exporter_call "append_with_deduplication" mapped st with
    | some r => r
    | none => (st, false)
  else (st, false)

/-- The per-window behaviour of the network and browser during one range
window, as `_scrape_range_by_days` observes it. -/
structure RangeEnv (α : Type) where
  /-- `True` when an exception escapes the body of the `try` in
  `_scrape_range_by_days` (caught at src/src/scraper.py:843-847, which
  then falls back to daily scraping). -/
  raises_in_body : Bool
  /-- the result of `_navigate_to_page(range_url)` -/
  nav_ok : Bool
  /-- the result of `_is_driver_responsive()` after navigation -/
  responsive : Bool
  /-- the events `_scrape_calendar_table_for_range` returns -/
  range_events : List α
  /-- the number of in-window session recreations performed by
  `_handle_invalid_session` during this window -/
  recreations : Nat

/-- The behaviour of one day inside `_scrape_range_by_daily_fallback`. -/
structure DayEnv (α : Type) where
  /-- `True` when the day's body raises (caught at
  src/src/scraper.py:883-885; the loop then moves to the next day). -/
  raises : Bool
  /-- the events `_scrape_day` returns for the day -/
  events : List α

/-- `_is_weekend`/`_should_skip_date` (src/src/scraper.py:363-371), with
day numbering such that day 0 is a Monday. -/
def should_skip_date (day : Nat) : Bool := day % 7 = 5 || day % 7 = 6

/-- The day loop of `_scrape_range_by_daily_fallback`
(src/src/scraper.py:849-891): weekends are skipped, a raising day
contributes nothing, and the loop always finishes.  Structured by fuel
(`range_end + 1 - current_date` bounds the iteration count). -/
def daily_fallback_aux (dayenv : Nat → DayEnv α) :
    Nat → Nat → Nat → List α
  | 0, _, _ => []
  | fuel + 1, current_date, range_end =>
    if current_date ≤ range_end then
      (if should_skip_date current_date then []
       else if (dayenv current_date).raises then []
       else (dayenv current_date).events) ++
        daily_fallback_aux dayenv fuel (current_date + 1) range_end
    else []

/-- `_scrape_range_by_daily_fallback(range_start, range_end)`
(src/src/scraper.py:849-891). -/
def scrape_range_by_daily_fallback (dayenv : Nat → DayEnv α)
    (range_start range_end : Nat) : List α :=
  daily_fallback_aux dayenv (range_end + 1 - range_start) range_start range_end

/-- `_scrape_range_by_days(range_start, range_end)`
(src/src/scraper.py:806-847): an exception anywhere in the body is caught
and answered by the daily fallback, a failed navigation likewise, an
unresponsive driver yields `[]`, and otherwise the range page's events
are returned.  In every case the function returns a list — it never
raises and never returns `None`. -/
def scrape_range_by_days_result (env : RangeEnv α) (dayenv : Nat → DayEnv α)
    (range_start range_end : Nat) : List α :=
  if env.raises_in_body then scrape_range_by_daily_fallback dayenv range_start range_end
  else if !env.nav_ok then scrape_range_by_daily_fallback dayenv range_start range_end
  else if !env.responsive then []
  else env.range_events

/-- What a window body reports to `scrape_date_range`'s loop: a normal
return value, or an exception escaping into the `except` clause at
src/src/scraper.py:774-777. -/
inductive WinBody (α : Type) where
  | ok (evs : List α)
  | exn

/-- One window body's full effect: its outcome, the session handle in use
when the window started, and the driver/fresh-id state it leaves behind. -/
structure WindowStep (α : Type) where
  outcome : WinBody α
  used_id : Nat
  driver : Option Nat
  next_id : Nat

/-- The orchestrator state of `scrape_date_range`: accumulated events,
the success/failure tallies, the browser session handle (`self.driver`,
as an abstract identity), a counter supplying fresh handle identities,
and a ghost trace recording, per window, the handle in use at the start
of the window and the handle left after the window boundary. -/
structure OrchState (α : Type) where
  events : List α
  successful : Nat
  failed : Nat
  driver : Option Nat
  next_id : Nat
  traces : List (Nat × Option Nat)

/-- The window loop of `scrape_date_range` (src/src/scraper.py:755-783):
a window that returns normally contributes its events, counts as
successful and has the driver closed right after (`_close_driver()` at
line 772, which never raises); a window whose body raises is caught by
the `except` clause, counted as failed, and the loop continues — without
closing the driver. -/
def run_windows (body : Nat → Nat × Nat → Option Nat → Nat → WindowStep α) :
    List (Nat × Nat) → Nat → OrchState α → OrchState α
  | [], _, st => st
  | w :: rest, i, st =>
    match body i w st.driver st.next_id with
    | ⟨.ok evs, used_id, _, next_id⟩ =>
      run_windows body rest (i + 1)
        { events := st.events ++ evs, successful := st.successful + 1,
          failed := st.failed, driver := none, next_id := next_id,
          traces := st.traces ++ [(used_id, none)] }
    | ⟨.exn, used_id, driver, next_id⟩ =>
      run_windows body rest (i + 1)
        { events := st.events, successful := st.successful,
          failed := st.failed + 1, driver := driver,
          next_id := next_id,
          traces := st.traces ++ [(used_id, driver)] }

/-- The faithful window body built from `_scrape_range_by_days`: the
driver is created fresh when absent (src/src/scraper.py:810-812), may be
recreated `recreations` times inside the window, and the body always
returns normally (`WinBody.ok`) because its `try` catches every
exception. -/
def range_window_body (env : RangeEnv α) (dayenv : Nat → DayEnv α) :
    Nat × Nat → Option Nat → Nat → WindowStep α := fun w driver next_id =>
  let used_id := match driver with
    | some j => j
    | none => next_id
  let n1 := match driver with
    | some _ => next_id
    | none => next_id + 1
  let driver_after := if env.recreations = 0 then used_id else n1 + env.recreations - 1
  let n2 := n1 + env.recreations
  { outcome := .ok (scrape_range_by_days_result env dayenv w.1 w.2),
    used_id := used_id, driver := some driver_after, next_id := n2 }

/-- `scrape_date_range(start_date, end_date)` (src/src/scraper.py:735-804):
the span is split into 1-month chunks (`max_months=1` hardcoded at line
747), the window loop runs, and the `finally` clause closes the driver. -/
def scrape_date_range (start_date end_date : Nat) (envs : Nat → RangeEnv α)
    (dayenvs : Nat → Nat → DayEnv α) : OrchState α :=
  let ranges := split_into_ranges start_date end_date 1
  let res := run_windows
    (fun i w d n => range_window_body (envs i) (dayenvs i) w d n) ranges 1
    { events := [], successful := 0, failed := 0, driver := none,
      next_id := 0, traces := [] }
  { res with driver := none }

/-- The per-window results of a run, in window order: window `i` (1-based
as in `enumerate(ranges, 1)`) contributes exactly what
`_scrape_range_by_days` returns for it. -/
def window_results (envs : Nat → RangeEnv α) (dayenvs : Nat → Nat → DayEnv α) :
    Nat → List (Nat × Nat) → List (List α)
  | _, [] => []
  | i, w :: ws =>
    scrape_range_by_days_result (envs i) (dayenvs i) w.1 w.2 ::
      window_results envs dayenvs (i + 1) ws

end Scraper

namespace Cleaner

/-- A row as `clean_countries` reads it: the `Event`, `Currency` and
`Country` columns (the others are untouched by the country resolution). -/
structure Row where
  event : String
  currency : String
  country : String
deriving DecidableEq, Repr

/-- `EconomicDataCleaner.country_mapping` (src/src/data_cleaner.py:30-58),
in insertion order. -/
def country_mapping : List (String × String) :=
  [("USD", "United States"), ("EUR", "Eurozone"), ("GBP", "United Kingdom"),
   ("JPY", "Japan"), ("CHF", "Switzerland"), ("AUD", "Australia"),
   ("NZD", "New Zealand"), ("CAD", "Canada"), ("CNY", "China"),
   ("CH", "Switzerland"), ("US", "United States"), ("GB", "United Kingdom"),
   ("UK", "United Kingdom"), ("JP", "Japan"), ("AU", "Australia"),
   ("NZ", "New Zealand"), ("CA", "Canada"), ("CN", "China"),
   ("FR", "France"), ("DE", "Germany"), ("IT", "Italy"), ("ES", "Spain"),
   ("RU", "Russia"), ("BR", "Brazil"), ("IN", "India"), ("MX", "Mexico"),
   ("ZA", "South Africa")]

/-- `EconomicDataCleaner.event_country_keywords`
(src/src/data_cleaner.py:61-80), in insertion order — Python dicts
iterate in insertion order, so this is the order the detection loop
visits. -/
def event_country_keywords : List (String × List String) :=
  [("United States", ["US ", "United States", "Federal Reserve", "FOMC", "Fed",
      "Treasury", "Bureau", "Department of"]),
   ("Eurozone", ["EZ ", "Eurozone", "European Central Bank", "ECB", "European",
      "Euro"]),
   ("United Kingdom", ["UK ", "United Kingdom", "Bank of England", "BOE",
      "British", "MPC"]),
   ("Japan", ["Japan", "Bank of Japan", "BOJ", "Japanese"]),
   ("Switzerland", ["CH ", "Switzerland", "Swiss National Bank", "SNB", "Swiss"]),
   ("Australia", ["AU ", "Australia", "Reserve Bank of Australia", "RBA",
      "Australian"]),
   ("New Zealand", ["NZ ", "New Zealand", "Reserve Bank of New Zealand", "RBNZ"]),
   ("Canada", ["CA ", "Canada", "Bank of Canada", "BOC", "Canadian"]),
   ("China", ["CN ", "China", "People's Bank of China", "PBOC", "Chinese"]),
   ("France", ["FR ", "France", "French"]),
   ("Germany", ["DE ", "Germany", "German", "Bundesbank"]),
   ("Italy", ["IT ", "Italy", "Italian"]),
   ("Spain", ["ES ", "Spain", "Spanish"]),
   ("Russia", ["RU ", "Russia", "Russian"]),
   ("Brazil", ["BR ", "Brazil", "Brazilian"]),
   ("India", ["IN ", "India", "Indian", "Reserve Bank of India", "RBI"]),
   ("Mexico", ["MX ", "Mexico", "Mexican"]),
   ("South Africa", ["ZA ", "South Africa", "South African"])]

/-- Whether one keyword of a table entry occurs (case-insensitively, via
`upper()`) in the event title — the match test of the detection loop. -/
def keyword_hit (event_name : String) (p : String × List String) : Bool :=
  p.2.any (fun kw => Py.strIn (Py.upper kw) (Py.upper event_name))

/-- `EconomicDataCleaner._detect_country_from_event(event_name)`
(src/src/data_cleaner.py:138-147): the nested loops return the first
country one of whose keywords occurs in the uppercased title. -/
def detect_country_from_event (event_name : String) : Option String :=
  (event_country_keywords.find? (keyword_hit event_name)).map Prod.fst

/-- The per-row body of the country-resolution loop of `clean_countries`
(src/src/data_cleaner.py:108-127): rows already carrying a country other
than `'Unknown'` are skipped; otherwise the keyword detection is tried
first and the currency table second. -/
def clean_countries_row (r : Row) : Row :=
  if r.country ≠ "Unknown" then r
  else
    match detect_country_from_event r.event with
    | some c => { r with country := c }
    | none =>
      match Py.lookupKey country_mapping r.currency with
      | some c => { r with country := c }
      | none => r

/-- The country-resolution pass of `clean_countries`
(src/src/data_cleaner.py:108-127) over the whole frame: the loop updates
each row independently. -/
def clean_countries_pass (df : List Row) : List Row :=
  df.map clean_countries_row

/-- The `country_to_currency` table of `_fix_currency_inconsistencies`
(src/src/data_cleaner.py:154-173). -/
def country_to_currency : List (String × String) :=
  [("United States", "USD"), ("Eurozone", "EUR"), ("United Kingdom", "GBP"),
   ("Japan", "JPY"), ("Switzerland", "CHF"), ("Australia", "AUD"),
   ("New Zealand", "NZD"), ("Canada", "CAD"), ("China", "CNY"),
   ("France", "EUR"), ("Germany", "EUR"), ("Italy", "EUR"), ("Spain", "EUR"),
   ("Russia", "RUB"), ("Brazil", "BRL"), ("India", "INR"), ("Mexico", "MXN"),
   ("South Africa", "ZAR")]

/-- `EconomicDataCleaner._fix_currency_inconsistencies(df)`
(src/src/data_cleaner.py:149-185), per row. -/
def fix_currency_row (r : Row) : Row :=
  match Py.lookupKey country_to_currency r.country with
  | some expected => if r.currency ≠ expected then { r with currency := expected } else r
  | none => r

/-- `EconomicDataCleaner.clean_countries(df)` (src/src/data_cleaner.py:99-136):
the country-resolution loop followed by the currency-inconsistency fix. -/
def clean_countries (df : List Row) : List Row :=
  (clean_countries_pass df).map fix_currency_row

end Cleaner

/-- Claim-local concrete run for C3: two one-month windows over days
0..59; window 1's navigation fails (its daily fallback finds every day
raising, yielding no records), window 2 succeeds with one record. -/
def c3_envs : Nat → Scraper.RangeEnv String := fun i =>
  if i = 1 then
    { raises_in_body := false, nav_ok := false, responsive := true,
      range_events := [], recreations := 0 }
  else
    { raises_in_body := false, nav_ok := true, responsive := true,
      range_events := ["evt"], recreations := 0 }

/-- Claim-local day behaviour for C3: every day raises (and is caught). -/
def c3_dayenvs : Nat → Nat → Scraper.DayEnv String := fun _ _ =>
  { raises := true, events := [] }

/-- Claim-local concrete run for C5: two successful one-month windows. -/
def c5_envs : Nat → Scraper.RangeEnv String := fun _ =>
  { raises_in_body := false, nav_ok := true, responsive := true,
    range_events := ["x"], recreations := 0 }

/-- Claim-local day behaviour for C5 (never consulted: navigation
succeeds). -/
def c5_dayenvs : Nat → Nat → Scraper.DayEnv String := fun _ _ =>
  { raises := false, events := [] }

/-- Claim-local records for C6: the stored version of a record and a
later-appended version with the same `(DateTime, Event, Currency)` key
but a different `Actual` value. -/
def c6_first : Csv.Record :=
  { dt := 100, event := "CPI y/y", currency := "USD", actual := "3.1" }

/-- The later version of the same record (see `c6_first`). -/
def c6_second : Csv.Record :=
  { dt := 100, event := "CPI y/y", currency := "USD", actual := "3.4" }

/-! ## Support lemmas: Python string primitives -/

namespace Py

theorem listHasPre_iff (n h : List Char) :
    listHasPre n h = true ↔ ∃ t, h = n ++ t := by
  induction n generalizing h with
  | nil => simp [listHasPre]
  | cons a ns ih =>
    cases h with
    | nil => simp [listHasPre]
    | cons b hs =>
      simp only [listHasPre, Bool.and_eq_true, beq_iff_eq, ih]
      constructor
      · rintro ⟨rfl, t, rfl⟩; exact ⟨t, rfl⟩
      · rintro ⟨t, ht⟩
        injection ht with h1 h2
        exact ⟨h1.symm, t, h2⟩

theorem listHasSub_iff (n h : List Char) :
    listHasSub n h = true ↔ ∃ p t, h = p ++ n ++ t := by
  induction h with
  | nil =>
    simp only [listHasSub, List.isEmpty_iff]
    constructor
    · rintro rfl; exact ⟨[], [], rfl⟩
    · rintro ⟨p, t, ht⟩
      rcases p with _ | ⟨a, p⟩
      · rcases n with _ | ⟨b, n⟩
        · rfl
        · simp at ht
      · simp at ht
  | cons b hs ih =>
    simp only [listHasSub, Bool.or_eq_true, listHasPre_iff, ih]
    constructor
    · rintro (⟨t, ht⟩ | ⟨p, t, ht⟩)
      · exact ⟨[], t, by simp [ht]⟩
      · exact ⟨b :: p, t, by simp [ht]⟩
    · rintro ⟨p, t, ht⟩
      rcases p with _ | ⟨a, p⟩
      · exact Or.inl ⟨t, by simpa using ht⟩
      · injection ht with h1 h2
        exact Or.inr ⟨p, t, h2⟩

theorem listHasSub_length {n h : List Char} (hs : listHasSub n h = true) :
    n.length ≤ h.length := by
  rcases (listHasSub_iff n h).mp hs with ⟨p, t, rfl⟩
  simp; omega

theorem listHasSub_trans {a b c : List Char}
    (h1 : listHasSub a b = true) (h2 : listHasSub b c = true) :
    listHasSub a c = true := by
  rcases (listHasSub_iff a b).mp h1 with ⟨p, t, rfl⟩
  rcases (listHasSub_iff _ c).mp h2 with ⟨p', t', rfl⟩
  exact (listHasSub_iff a _).mpr ⟨p' ++ p, t ++ t', by simp⟩

theorem strIn_trans {a b c : String}
    (h1 : strIn a b = true) (h2 : strIn b c = true) : strIn a c = true :=
  listHasSub_trans h1 h2

theorem strIn_length {a b : String} (h : strIn a b = true) :
    a.data.length ≤ b.data.length := listHasSub_length h

private theorem char_toNat_ofNat_letter {n : Nat} (h1 : 65 ≤ n) (h2 : n ≤ 122) :
    (Char.ofNat n).toNat = n := by
  unfold Char.ofNat
  have hv : n.isValidChar := Or.inl (by omega)
  rw [dif_pos hv]
  rfl

private theorem char_eq_of_toNat {c d : Char} (h : c.toNat = d.toNat) : c = d :=
  Char.ext (UInt32.ext h)

/-- Uppercasing after lowercasing is the same as uppercasing directly. -/
theorem charUpper_charLower (c : Char) : charUpper (charLower c) = charUpper c := by
  unfold charLower charUpper
  by_cases h : 65 ≤ c.toNat ∧ c.toNat ≤ 90
  · rw [if_pos h]
    have ht : (Char.ofNat (c.toNat + 32)).toNat = c.toNat + 32 :=
      char_toNat_ofNat_letter (by omega) (by omega)
    rw [if_pos (by omega), if_neg (by omega)]
    apply char_eq_of_toNat
    rw [char_toNat_ofNat_letter (by omega) (by omega)]
    omega
  · rw [if_neg h]

/-- Lowercasing a lowered character changes nothing. -/
theorem charLower_charLower (c : Char) : charLower (charLower c) = charLower c := by
  unfold charLower
  by_cases h : 65 ≤ c.toNat ∧ c.toNat ≤ 90
  · rw [if_pos h]
    have ht : (Char.ofNat (c.toNat + 32)).toNat = c.toNat + 32 :=
      char_toNat_ofNat_letter (by omega) (by omega)
    rw [if_neg (by omega)]
  · rw [if_neg h, if_neg h]

/-- A character whose lowered form is a lowercase letter is alphabetic. -/
theorem charIsAlpha_of_lower_letter {c : Char}
    (h : 97 ≤ (charLower c).toNat ∧ (charLower c).toNat ≤ 122) :
    charIsAlpha c = true := by
  unfold charLower at h
  unfold charIsAlpha
  by_cases hc : 65 ≤ c.toNat ∧ c.toNat ≤ 90
  · simp only [Bool.or_eq_true, Bool.and_eq_true, decide_eq_true_eq]
    left; omega
  · rw [if_neg hc] at h
    simp only [Bool.or_eq_true, Bool.and_eq_true, decide_eq_true_eq]
    right; omega

/-- The lowered form of a character is alphabetic whenever it is a
lowercase letter. -/
theorem charIsAlpha_lower_of_letter {c : Char}
    (h : 97 ≤ (charLower c).toNat ∧ (charLower c).toNat ≤ 122) :
    charIsAlpha (charLower c) = true := by
  unfold charIsAlpha
  simp only [Bool.or_eq_true, Bool.and_eq_true, decide_eq_true_eq]
  right; omega

/-- On a string all of whose lowered characters are lowercase letters,
`title` only depends on the lowered string. -/
theorem titleAux_map_lower (l : List Char) (prev : Bool)
    (h : ∀ d ∈ l.map charLower, 97 ≤ d.toNat ∧ d.toNat ≤ 122) :
    titleAux prev l = titleAux prev (l.map charLower) := by
  induction l generalizing prev with
  | nil => rfl
  | cons c cs ih =>
    have hc : 97 ≤ (charLower c).toNat ∧ (charLower c).toNat ≤ 122 :=
      h (charLower c) (by simp)
    have halpha : charIsAlpha c = true := charIsAlpha_of_lower_letter hc
    have halpha' : charIsAlpha (charLower c) = true := charIsAlpha_lower_of_letter hc
    simp only [List.map_cons, titleAux, halpha, halpha', if_true]
    rw [ih _ (fun d hd => h d (by simp [hd]))]
    cases prev
    · simp [charUpper_charLower]
    · simp [charLower_charLower]

theorem title_eq_title_lower {s : String}
    (h : ∀ d ∈ (lower s).data, 97 ≤ d.toNat ∧ d.toNat ≤ 122) :
    title s = title (lower s) := by
  unfold title lower at *
  exact congrArg String.mk (titleAux_map_lower s.data false h)

end Py

/-! ## Support lemmas: range partitioning -/

namespace Scraper

theorem split_ranges_aux_of_gt (m : Nat) :
    ∀ fuel cs e, e < cs → split_ranges_aux m fuel cs e = [] := by
  intro fuel cs e h
  cases fuel with
  | zero => rfl
  | succ n => simp [split_ranges_aux, Nat.not_le.mpr h]

theorem split_ranges_aux_spec (m : Nat) (hm : 1 ≤ m) :
    ∀ fuel cs e, cs ≤ e → e + 1 - cs ≤ fuel →
      SplitLoop m e cs (split_ranges_aux m fuel cs e) ∧
      (split_ranges_aux m fuel cs e ≠ []) ∧
      ((split_ranges_aux m fuel cs e).head?.map Prod.fst = some cs) ∧
      ((split_ranges_aux m fuel cs e).getLast?.map Prod.snd = some e) ∧
      List.Chain' (fun a b => b.1 = a.2 + 1) (split_ranges_aux m fuel cs e) ∧
      (∀ w ∈ split_ranges_aux m fuel cs e, w.1 ≤ w.2 ∧ w.2 + 1 - w.1 ≤ m * 30) ∧
      ((split_ranges_aux m fuel cs e).flatMap windowDays = List.range' cs (e + 1 - cs)) := by
  intro fuel
  induction fuel with
  | zero => intro cs e hle hfuel; omega
  | succ n ih =>
    intro cs e hle hfuel
    have hm30 : 1 ≤ m * 30 := by
      calc 1 ≤ m := hm
      _ ≤ m * 30 := Nat.le_mul_of_pos_right m (by omega)
    simp only [split_ranges_aux, if_pos hle]
    set ce := min (cs + (m * 30 - 1)) e with hce
    by_cases hlast : e ≤ cs + (m * 30 - 1)
    · -- final window: the recursive call starts past `e` and yields []
      have hcee : ce = e := by omega
      have hrec : split_ranges_aux m n (ce + 1) e = [] :=
        split_ranges_aux_of_gt m n (ce + 1) e (by omega)
      rw [hrec]
      refine ⟨?_, by simp, by simp, by simp [hcee], by simp, ?_, ?_⟩
      · exact SplitLoop.step cs [] hle (SplitLoop.stop _ (by omega))
      · intro w hw
        simp at hw
        subst hw
        constructor
        · simp; omega
        · simp; omega
      · simp [windowDays]
        congr 1
        omega
    · -- the window is full-length and the loop continues at `ce + 1`
      have hcee : ce = cs + (m * 30 - 1) := by omega
      have hcs' : ce + 1 ≤ e := by omega
      have hfuel' : e + 1 - (ce + 1) ≤ n := by omega
      obtain ⟨ihloop, ihne, ihhead, ihlast, ihchain, ihbound, ihcover⟩ :=
        ih (ce + 1) e hcs' hfuel'
      refine ⟨SplitLoop.step cs _ hle ihloop, by simp, by simp, ?_, ?_, ?_, ?_⟩
      · rcases hrest : split_ranges_aux m n (ce + 1) e with _ | ⟨b, rest⟩
        · exact absurd hrest ihne
        · rw [hrest] at ihlast
          rw [List.getLast?_cons_cons]
          exact ihlast
      · rcases hrest : split_ranges_aux m n (ce + 1) e with _ | ⟨b, rest⟩
        · exact absurd hrest ihne
        · rw [hrest] at ihhead ihchain
          refine List.Chain'.cons ?_ ihchain
          have : b.1 = ce + 1 := by simpa using ihhead
          simpa using this
      · intro w hw
        rcases List.mem_cons.mp hw with hw | hw
        · subst hw
          refine ⟨by simp; omega, ?_⟩
          simp; omega
        · exact ihbound w hw
      · simp only [List.flatMap_cons, ihcover]
        have : windowDays (cs, ce) = List.range' cs (m * 30) := by
          simp only [windowDays]
          congr 1
          omega
        rw [this]
        have happ := List.range'_append cs (m * 30) (e + 1 - (ce + 1)) 1
        simp only [one_mul] at happ
        have harg : cs + m * 30 = ce + 1 := by omega
        rw [harg] at happ
        rw [happ]
        congr 1
        omega

end Scraper

/-! ## Support lemmas: impact normalization -/

namespace Scraper

theorem convert_css_impact_mem (s : String) :
    convert_css_impact_to_readable s ∈ readable_impacts := by
  unfold convert_css_impact_to_readable
  dsimp only
  split_ifs with h1 h2 h3 h4 h5
  · rcases h1 with h | h | h
    · rw [Py.title_eq_title_lower (by rw [h]; decide), h]; decide
    · rw [Py.title_eq_title_lower (by rw [h]; decide), h]; decide
    · rw [Py.title_eq_title_lower (by rw [h]; decide), h]; decide
  · decide
  · decide
  · decide
  · decide
  · decide

theorem impact_from_css_fields_mem :
    ∀ (fs : List String) (ed : JsDict) (r : String),
      impact_from_css_fields fs ed = some r → r ∈ readable_impacts := by
  intro fs
  induction fs with
  | nil => intro ed r h; simp [impact_from_css_fields] at h
  | cons f fs ih =>
    intro ed r h
    rcases hl : Py.lookupKey ed f with _ | v
    · simp only [impact_from_css_fields, hl] at h
      exact ih ed r h
    · simp only [impact_from_css_fields, hl] at h
      split_ifs at h with h1 h2 h3
      · injection h with h; subst h; decide
      · injection h with h; subst h; decide
      · injection h with h; subst h; decide
      · exact ih ed r h

theorem impact_from_numeric_mem :
    ∀ (fs : List String) (ed : JsDict) (r : String),
      impact_from_numeric fs ed = some r → r ∈ readable_impacts := by
  intro fs
  induction fs with
  | nil => intro ed r h; simp [impact_from_numeric] at h
  | cons f fs ih =>
    intro ed r h
    rcases hl : Py.lookupKey ed f with _ | v
    · simp only [impact_from_numeric, hl] at h
      exact ih ed r h
    · simp only [impact_from_numeric, hl] at h
      rcases hi : Py.jvInt v with _ | n
      · rw [hi] at h; exact ih ed r h
      · rw [hi] at h
        injection h with h
        subst h
        split_ifs <;> decide

theorem impact_from_string_fields_mem :
    ∀ (fs : List String) (ed : JsDict) (r : String),
      impact_from_string_fields fs ed = some r → r ∈ readable_impacts := by
  intro fs
  induction fs with
  | nil => intro ed r h; simp [impact_from_string_fields] at h
  | cons f fs ih =>
    intro ed r h
    rcases hl : Py.lookupKey ed f with _ | v
    · simp only [impact_from_string_fields, hl] at h
      exact ih ed r h
    · simp only [impact_from_string_fields, hl] at h
      split_ifs at h with h1 h2 h3
      · injection h with h; subst h; decide
      · injection h with h; subst h; decide
      · injection h with h; subst h; decide
      · exact ih ed r h

theorem impact_from_fields_spec :
    ∀ (fs : List String) (ed : JsDict) (r : String),
      impact_from_fields fs ed = some r →
      r ∈ readable_impacts ∨
        ∃ v, fs.findSome? (fun f => Py.lookupKey ed f) = some v ∧
          r = Py.title (Py.jvStr v) := by
  intro fs
  induction fs with
  | nil => intro ed r h; simp [impact_from_fields] at h
  | cons f fs ih =>
    intro ed r h
    rcases hl : Py.lookupKey ed f with _ | v
    · simp only [impact_from_fields, hl] at h
      rcases ih ed r h with hm | ⟨v, hv, hr⟩
      · exact Or.inl hm
      · refine Or.inr ⟨v, ?_, hr⟩
        simp [List.findSome?_cons, hl, hv]
    · simp only [impact_from_fields, hl, Option.some_inj] at h
      subst h
      by_cases ht : Py.strIn "Icon--Ff-Impact" (Py.jvStr v) = true
      · rw [if_pos ht]
        exact Or.inl (convert_css_impact_mem _)
      · rw [if_neg ht]
        refine Or.inr ⟨v, ?_, rfl⟩
        simp [List.findSome?_cons, hl]

theorem extract_impact_spec (ed : JsDict) :
    extract_impact_from_js_data ed ∈ readable_impacts ∨
      ∃ v, first_direct_impact_field ed = some v ∧
        extract_impact_from_js_data ed = Py.title (Py.jvStr v) := by
  rcases hl : Py.lookupKey ed "impact" with _ | v
  · simp only [extract_impact_from_js_data, first_direct_impact_field, hl]
    rcases hf : impact_from_fields impact_fields ed with _ | r
    · rcases hc : impact_from_css_fields css_fields ed with _ | r
      · rcases hn : impact_from_numeric numeric_impact_indicators ed with _ | r
        · rcases hs : impact_from_string_fields string_impact_indicators ed with _ | r
          · left; decide
          · left; exact impact_from_string_fields_mem _ ed r hs
        · left; exact impact_from_numeric_mem _ ed r hn
      · left; exact impact_from_css_fields_mem _ ed r hc
    · rcases impact_from_fields_spec impact_fields ed r hf with hm | ⟨v, hv, hr⟩
      · exact Or.inl hm
      · exact Or.inr ⟨v, hv, hr⟩
  · simp only [extract_impact_from_js_data, first_direct_impact_field, hl]
    by_cases ht : Py.strIn "Icon--Ff-Impact" (Py.jvStr v) = true
    · rw [if_pos ht]
      exact Or.inl (convert_css_impact_mem _)
    · rw [if_neg ht]
      exact Or.inr ⟨v, rfl, rfl⟩

theorem impact_from_child_elems_mem :
    ∀ (l : List (List String)) (r : String),
      impact_from_child_elems l = some r → r ∈ readable_impacts := by
  intro l
  induction l with
  | nil => intro r h; simp [impact_from_child_elems] at h
  | cons cls rest ih =>
    intro r h
    simp only [impact_from_child_elems] at h
    split_ifs at h with h1 h2 h3 h4
    · injection h with h; subst h; decide
    · injection h with h; subst h; decide
    · injection h with h; subst h; decide
    · exact ih r h
    · exact ih r h

theorem impact_from_data_attrs_mem :
    ∀ (l : List (String × String)) (r : String),
      impact_from_data_attrs l = some r → r ∈ readable_impacts := by
  intro l
  induction l with
  | nil => intro r h; simp [impact_from_data_attrs] at h
  | cons p rest ih =>
    intro r h
    rcases p with ⟨name, value⟩
    simp only [impact_from_data_attrs] at h
    split_ifs at h with h1 h2 h3 h4
    · injection h with h; subst h; decide
    · injection h with h; subst h; decide
    · injection h with h; subst h; decide
    · exact ih r h
    · exact ih r h

theorem parse_impact_level_mem (c : Option HtmlCell) :
    parse_impact_level c ∈ readable_impacts := by
  rcases c with _ | cell
  · decide
  · unfold parse_impact_level
    rcases hc : impact_from_child_elems cell.childClasses with _ | r <;>
      rcases hd : impact_from_data_attrs cell.dataAttrs with _ | r2 <;>
        simp only [hc, hd] <;> split_ifs <;>
          first
            | decide
            | (exact impact_from_child_elems_mem _ _ hc)
            | (exact impact_from_data_attrs_mem _ _ hd)

end Scraper

namespace Scraper

/-- A JS-path record keeps a truthy title and carries exactly the impact
`_extract_impact_from_js_data` computed. -/
theorem parse_js_event_data_spec (ed : JsDict) (t : Nat) (rec : SRecord)
    (h : parse_js_event_data ed t = some rec) :
    Py.jvTruthy rec.event = true ∧ rec.impact = extract_impact_from_js_data ed := by
  unfold parse_js_event_data at h
  dsimp only at h
  rcases hcc : (Py.lookupKey ed "country").getD (.str "") with cc | n | b <;>
    rw [hcc] at h <;> try dsimp only at h
  · split_ifs at h with htruthy hnotice <;>
      (injection h with h; subst h; exact ⟨htruthy, rfl⟩)
  · split_ifs at h
  · split_ifs at h

/-- An HTML-path record has a non-empty string title and a canonical
impact. -/
theorem parse_event_row_spec (cells : List HtmlCell) (t : Nat) (rec : SRecord)
    (h : parse_event_row cells t = some rec) :
    (∃ s, rec.event = .str s ∧ s ≠ "") ∧ rec.impact ∈ readable_impacts := by
  unfold parse_event_row at h
  split_ifs at h with hlen hname
  · injection h with h
    subst h
    constructor
    · refine ⟨_, rfl, ?_⟩
      intro heq
      exact hname (Or.inl heq)
    · unfold row_impact
      rcases hd : (detect_cells cells).impact_cell with _ | c
      · simp only [hd]; decide
      · simp only [hd]
        exact parse_impact_level_mem (some c)

/-- Enhancement never touches the title and either keeps the impact or
replaces it with a canonical one. -/
theorem enhance_with_cells_spec (cells : List HtmlCell) (r : SRecord) :
    (enhance_with_cells cells r).event = r.event ∧
      ((enhance_with_cells cells r).impact = r.impact ∨
        (enhance_with_cells cells r).impact ∈ readable_impacts) := by
  unfold enhance_with_cells
  rcases hc : cells.get? 2 with _ | impact_cell
  · exact ⟨rfl, Or.inl rfl⟩
  · exact ⟨rfl, Or.inr (parse_impact_level_mem (some impact_cell))⟩

theorem enhance_one_js_event_spec (rows : List (List HtmlCell)) (r : SRecord) :
    (enhance_one_js_event rows r).event = r.event ∧
      ((enhance_one_js_event rows r).impact = r.impact ∨
        (enhance_one_js_event rows r).impact ∈ readable_impacts) := by
  unfold enhance_one_js_event
  rcases hev : r.event with s | n | b
  · dsimp only
    rcases hm : find_matching_row rows s with _ | cells
    · exact ⟨hev, Or.inl rfl⟩
    · exact ⟨(enhance_with_cells_spec cells r).1.trans hev,
        (enhance_with_cells_spec cells r).2⟩
  · exact ⟨hev, Or.inl rfl⟩
  · exact ⟨hev, Or.inl rfl⟩

/-- The conversion pass keeps the title and either leaves the impact
(when it carries no `Icon--Ff-Impact` token) or replaces it with a
canonical one. -/
theorem convert_impact_in_events_spec (events : List SRecord) (rec : SRecord)
    (h : rec ∈ convert_impact_in_events events) :
    ∃ r0 ∈ events, rec.event = r0.event ∧
      (rec.impact = r0.impact ∨ rec.impact ∈ readable_impacts) := by
  unfold convert_impact_in_events at h
  rcases List.mem_map.mp h with ⟨r0, hr0, heq⟩
  refine ⟨r0, hr0, ?_⟩
  by_cases ht : Py.strIn "Icon--Ff-Impact" r0.impact = true
  · rw [if_pos ht] at heq
    subst heq
    exact ⟨rfl, Or.inr (convert_css_impact_mem _)⟩
  · rw [if_neg ht] at heq
    subst heq
    exact ⟨rfl, Or.inl rfl⟩

end Scraper

/-! ## Claim theorems: impact normalization (C7, C10) -/

namespace Scraper

theorem strIn_short_red {t : String} (h : Py.strIn "icon--ff-impact-red" t = true) :
    Py.strIn "ff-impact-red" t = true :=
  Py.strIn_trans (by decide) h

theorem strIn_short_ora {t : String} (h : Py.strIn "icon--ff-impact-ora" t = true) :
    Py.strIn "ff-impact-ora" t = true :=
  Py.strIn_trans (by decide) h

theorem strIn_short_yel {t : String} (h : Py.strIn "icon--ff-impact-yel" t = true) :
    Py.strIn "ff-impact-yel" t = true :=
  Py.strIn_trans (by decide) h

theorem strIn_short_gra {t : String} (h : Py.strIn "icon--ff-impact-gra" t = true) :
    Py.strIn "ff-impact-gra" t = true :=
  Py.strIn_trans (by decide) h

/-- A string containing a 19-character token is none of the three
readable words. -/
theorem not_readable_of_long_token {t s : String}
    (hlen : 19 ≤ t.data.length) (h : Py.strIn t (Py.lower s) = true) :
    ¬(Py.lower s = "high" ∨ Py.lower s = "medium" ∨ Py.lower s = "low") := by
  have hle := Py.strIn_length h
  rintro (h' | h' | h') <;> rw [h'] at hle
  · have h4 : ("high" : String).data.length = 4 := rfl
    omega
  · have h6 : ("medium" : String).data.length = 6 := rfl
    omega
  · have h3 : ("low" : String).data.length = 3 := rfl
    omega

theorem impact_from_fields_none_of_absent :
    ∀ (fs : List String) (ed : JsDict), (∀ f ∈ fs, Py.lookupKey ed f = none) →
      impact_from_fields fs ed = none := by
  intro fs
  induction fs with
  | nil => intro ed _; rfl
  | cons f fs ih =>
    intro ed habs
    simp only [impact_from_fields, habs f (by simp)]
    exact ih ed (fun g hg => habs g (by simp [hg]))

theorem impact_from_css_fields_none_of_absent :
    ∀ (fs : List String) (ed : JsDict), (∀ f ∈ fs, Py.lookupKey ed f = none) →
      impact_from_css_fields fs ed = none := by
  intro fs
  induction fs with
  | nil => intro ed _; rfl
  | cons f fs ih =>
    intro ed habs
    simp only [impact_from_css_fields, habs f (by simp)]
    exact ih ed (fun g hg => habs g (by simp [hg]))

theorem impact_from_numeric_none_of_absent :
    ∀ (fs : List String) (ed : JsDict), (∀ f ∈ fs, Py.lookupKey ed f = none) →
      impact_from_numeric fs ed = none := by
  intro fs
  induction fs with
  | nil => intro ed _; rfl
  | cons f fs ih =>
    intro ed habs
    simp only [impact_from_numeric, habs f (by simp)]
    exact ih ed (fun g hg => habs g (by simp [hg]))

theorem impact_from_string_fields_none_of_absent :
    ∀ (fs : List String) (ed : JsDict), (∀ f ∈ fs, Py.lookupKey ed f = none) →
      impact_from_string_fields fs ed = none := by
  intro fs
  induction fs with
  | nil => intro ed _; rfl
  | cons f fs ih =>
    intro ed habs
    simp only [impact_from_string_fields, habs f (by simp)]
    exact ih ed (fun g hg => habs g (by simp [hg]))

end Scraper

/-- C10: `_convert_css_impact_to_readable` is total onto
{High, Medium, Low} and idempotent: every input maps to one of the three
readable values, and the routine is the identity on its own output. -/
theorem C10_convert_total_idempotent (s : String) :
    Scraper.convert_css_impact_to_readable s ∈ Scraper.readable_impacts ∧
      Scraper.convert_css_impact_to_readable (Scraper.convert_css_impact_to_readable s) =
        Scraper.convert_css_impact_to_readable s := by
  refine ⟨Scraper.convert_css_impact_mem s, ?_⟩
  have h := Scraper.convert_css_impact_mem s
  simp only [Scraper.readable_impacts, List.mem_cons, List.mem_singleton,
    List.not_mem_nil, or_false] at h
  rcases h with h | h | h <;> rw [h] <;> decide

/-- C7 (corrected): the conversion routine checks the red token first,
so it maps to `'High'` every input containing `Icon--Ff-Impact-Red`
(case-insensitively); to `'Medium'` an input containing
`Icon--Ff-Impact-Ora` only when the red token (in its short form
`ff-impact-red`) is absent; to `'Low'` an input containing
`Icon--Ff-Impact-Yel` or `Icon--Ff-Impact-Gra` only when the red and
orange tokens are absent; an input with no recognized hint maps to
`'Low'`, and a raw JS record carrying none of the probed impact fields is
likewise assigned `'Low'`. -/
theorem C7_impact_token_mapping :
    (∀ s, Py.strIn "icon--ff-impact-red" (Py.lower s) = true →
      Scraper.convert_css_impact_to_readable s = "High") ∧
    (∀ s, Py.strIn "icon--ff-impact-ora" (Py.lower s) = true →
      Py.strIn "ff-impact-red" (Py.lower s) = false →
      Scraper.convert_css_impact_to_readable s = "Medium") ∧
    (∀ s, (Py.strIn "icon--ff-impact-yel" (Py.lower s) = true ∨
        Py.strIn "icon--ff-impact-gra" (Py.lower s) = true) →
      Py.strIn "ff-impact-red" (Py.lower s) = false →
      Py.strIn "ff-impact-ora" (Py.lower s) = false →
      Scraper.convert_css_impact_to_readable s = "Low") ∧
    (∀ s, ¬(Py.lower s = "high" ∨ Py.lower s = "medium" ∨ Py.lower s = "low") →
      Py.strIn "ff-impact-red" (Py.lower s) = false →
      Py.strIn "ff-impact-ora" (Py.lower s) = false →
      Py.strIn "ff-impact-yel" (Py.lower s) = false →
      Py.strIn "ff-impact-gra" (Py.lower s) = false →
      Scraper.convert_css_impact_to_readable s = "Low") ∧
    (∀ ed : Scraper.JsDict,
      (∀ f ∈ "impact" :: (Scraper.impact_fields ++ Scraper.css_fields ++
          Scraper.numeric_impact_indicators ++ Scraper.string_impact_indicators),
        Py.lookupKey ed f = none) →
      Scraper.extract_impact_from_js_data ed = "Low") := by
  refine ⟨?_, ?_, ?_, ?_, ?_⟩
  · intro s h
    unfold Scraper.convert_css_impact_to_readable
    dsimp only
    rw [if_neg (Scraper.not_readable_of_long_token (by decide) h)]
    rw [if_pos (by simp [h])]
  · intro s h hred
    unfold Scraper.convert_css_impact_to_readable
    dsimp only
    rw [if_neg (Scraper.not_readable_of_long_token (by decide) h)]
    have hicon : Py.strIn "icon--ff-impact-red" (Py.lower s) = false := by
      rcases hr : Py.strIn "icon--ff-impact-red" (Py.lower s) with _ | _
      · rfl
      · rw [Scraper.strIn_short_red hr] at hred; exact absurd hred (by simp)
    rw [if_neg (by simp [hicon, hred])]
    rw [if_pos (by simp [h])]
  · intro s h hred hora
    unfold Scraper.convert_css_impact_to_readable
    dsimp only
    have hicon : Py.strIn "icon--ff-impact-red" (Py.lower s) = false := by
      rcases hr : Py.strIn "icon--ff-impact-red" (Py.lower s) with _ | _
      · rfl
      · rw [Scraper.strIn_short_red hr] at hred; exact absurd hred (by simp)
    have hicon2 : Py.strIn "icon--ff-impact-ora" (Py.lower s) = false := by
      rcases hr : Py.strIn "icon--ff-impact-ora" (Py.lower s) with _ | _
      · rfl
      · rw [Scraper.strIn_short_ora hr] at hora; exact absurd hora (by simp)
    rcases h with h | h
    · rw [if_neg (Scraper.not_readable_of_long_token (by decide) h)]
      rw [if_neg (by simp [hicon, hred]), if_neg (by simp [hicon2, hora])]
      rw [if_pos (by simp [h])]
    · rw [if_neg (Scraper.not_readable_of_long_token (by decide) h)]
      rw [if_neg (by simp [hicon, hred]), if_neg (by simp [hicon2, hora])]
      by_cases hyel : (Py.strIn "icon--ff-impact-yel" (Py.lower s) ||
          Py.strIn "ff-impact-yel" (Py.lower s)) = true
      · rw [if_pos hyel]
      · rw [if_neg hyel]
        rw [if_pos (by simp [h])]
  · intro s hw hred hora hyel hgra
    unfold Scraper.convert_css_impact_to_readable
    dsimp only
    have hicon : Py.strIn "icon--ff-impact-red" (Py.lower s) = false := by
      rcases hr : Py.strIn "icon--ff-impact-red" (Py.lower s) with _ | _
      · rfl
      · rw [Scraper.strIn_short_red hr] at hred; exact absurd hred (by simp)
    have hicon2 : Py.strIn "icon--ff-impact-ora" (Py.lower s) = false := by
      rcases hr : Py.strIn "icon--ff-impact-ora" (Py.lower s) with _ | _
      · rfl
      · rw [Scraper.strIn_short_ora hr] at hora; exact absurd hora (by simp)
    have hicon3 : Py.strIn "icon--ff-impact-yel" (Py.lower s) = false := by
      rcases hr : Py.strIn "icon--ff-impact-yel" (Py.lower s) with _ | _
      · rfl
      · rw [Scraper.strIn_short_yel hr] at hyel; exact absurd hyel (by simp)
    have hicon4 : Py.strIn "icon--ff-impact-gra" (Py.lower s) = false := by
      rcases hr : Py.strIn "icon--ff-impact-gra" (Py.lower s) with _ | _
      · rfl
      · rw [Scraper.strIn_short_gra hr] at hgra; exact absurd hgra (by simp)
    rw [if_neg hw, if_neg (by simp [hicon, hred]), if_neg (by simp [hicon2, hora]),
      if_neg (by simp [hicon3, hyel]), if_neg (by simp [hicon4, hgra])]
  · intro ed habs
    unfold Scraper.extract_impact_from_js_data
    rw [habs "impact" (by simp)]
    rw [Scraper.impact_from_fields_none_of_absent _ ed
      (fun f hf => habs f (by simp [Scraper.impact_fields] at hf ⊢; tauto))]
    rw [Scraper.impact_from_css_fields_none_of_absent _ ed
      (fun f hf => habs f (by simp [Scraper.css_fields] at hf ⊢; tauto))]
    rw [Scraper.impact_from_numeric_none_of_absent _ ed
      (fun f hf => habs f (by simp [Scraper.numeric_impact_indicators] at hf ⊢; tauto))]
    rw [Scraper.impact_from_string_fields_none_of_absent _ ed
      (fun f hf => habs f (by simp [Scraper.string_impact_indicators] at hf ⊢; tauto))]

/-- C7 counterexample: an input containing both the red and the orange
token converts to `'High'`, not to `'Medium'` as the claim's
orange clause, read as stated, requires of every input containing
`Icon--Ff-Impact-Ora`. -/
theorem C7_counterexample :
    Py.strIn "icon--ff-impact-ora"
      (Py.lower "Icon--Ff-Impact-Red Icon--Ff-Impact-Ora") = true ∧
    Scraper.convert_css_impact_to_readable
      "Icon--Ff-Impact-Red Icon--Ff-Impact-Ora" = "High" ∧
    Scraper.convert_css_impact_to_readable
      "Icon--Ff-Impact-Red Icon--Ff-Impact-Ora" ≠ "Medium" := by
  refine ⟨by decide, by decide, by decide⟩

/-- C7 witness: the amended clauses instantiated on the four tokens, an
unrecognized input, and a record with no impact hint. -/
theorem C7_witness :
    Scraper.convert_css_impact_to_readable "Icon--Ff-Impact-Red" = "High" ∧
    Scraper.convert_css_impact_to_readable "Icon--Ff-Impact-Ora" = "Medium" ∧
    Scraper.convert_css_impact_to_readable "Icon--Ff-Impact-Yel" = "Low" ∧
    Scraper.convert_css_impact_to_readable "Icon--Ff-Impact-Gra" = "Low" ∧
    Scraper.convert_css_impact_to_readable "nothing recognizable" = "Low" ∧
    Scraper.extract_impact_from_js_data [("name", Py.JVal.str "X")] = "Low" :=
  ⟨C7_impact_token_mapping.1 "Icon--Ff-Impact-Red" (by decide),
   C7_impact_token_mapping.2.1 "Icon--Ff-Impact-Ora" (by decide) (by decide),
   C7_impact_token_mapping.2.2.1 "Icon--Ff-Impact-Yel" (Or.inl (by decide))
     (by decide) (by decide),
   C7_impact_token_mapping.2.2.1 "Icon--Ff-Impact-Gra" (Or.inr (by decide))
     (by decide) (by decide),
   C7_impact_token_mapping.2.2.2.1 "nothing recognizable" (by decide)
     (by decide) (by decide) (by decide) (by decide),
   C7_impact_token_mapping.2.2.2.2 [("name", Py.JVal.str "X")] (by decide)⟩

/-- C2 (amended): every record emitted by `_scrape_day`'s pipeline after
the impact-conversion pass has a truthy (non-empty) title, and its
`Impact` is one of High/Medium/Low except on the JS path when the raw
event's first present direct impact field (`impact`, `impactLevel`,
`impact_level`, `importance`, `priority`, `significance`, `impactClass`,
`impact_class`) holds an unrecognized value: the record then carries that
raw value title-cased (e.g. a raw `impact: 'huge'` is emitted as
`'Huge'`). -/
theorem C2_record_validity (js_present : Bool) (eds : List Scraper.JsDict)
    (rows : List (List Scraper.HtmlCell)) (t : Nat) (rec : Scraper.SRecord)
    (h : rec ∈ Scraper.scrape_day_records js_present eds rows t) :
    Py.jvTruthy rec.event = true ∧
      (rec.impact ∈ Scraper.readable_impacts ∨
        ∃ ed ∈ eds, ∃ v, Scraper.first_direct_impact_field ed = some v ∧
          rec.impact = Py.title (Py.jvStr v)) := by
  unfold Scraper.scrape_day_records at h
  cases js_present with
  | false =>
    simp only [Bool.false_eq_true, if_false] at h
    obtain ⟨r0, hr0, hev, himp⟩ := Scraper.convert_impact_in_events_spec _ _ h
    obtain ⟨row, _hrow, hparse⟩ := List.mem_filterMap.mp hr0
    obtain ⟨⟨s, hs, hs0⟩, hmem⟩ := Scraper.parse_event_row_spec row t r0 hparse
    constructor
    · rw [hev, hs]
      simp [Py.jvTruthy, hs0]
    · rcases himp with heq | hmem2
      · left; rw [heq, hs] at *; exact hmem
      · left; exact hmem2
  | true =>
    simp only [if_true] at h
    obtain ⟨r1, hr1, hev, himp⟩ := Scraper.convert_impact_in_events_spec _ _ h
    obtain ⟨r0, hr0, henh⟩ := List.mem_map.mp hr1
    obtain ⟨ed, hed, hparse⟩ := List.mem_filterMap.mp hr0
    obtain ⟨htruthy, himp0⟩ := Scraper.parse_js_event_data_spec ed t r0 hparse
    have henspec := Scraper.enhance_one_js_event_spec rows r0
    constructor
    · rw [hev, ← henh, henspec.1]
      exact htruthy
    · rcases himp with heq | hm
      · rcases henspec.2 with he1 | he2
        · rcases Scraper.extract_impact_spec ed with hm0 | ⟨v, hv, him⟩
          · left; rw [heq, ← henh, he1, himp0]; exact hm0
          · right
            exact ⟨ed, hed, v, hv, by rw [heq, ← henh, he1, himp0, him]⟩
        · left; rw [heq, ← henh]; exact he2
      · left; exact hm

/-- C2 counterexample: a JS event whose `impact` field holds the
unrecognized string `'huge'` is emitted with `Impact = 'Huge'`, which is
not one of `'High'`/`'Medium'`/`'Low'` and survives the
impact-conversion pass. -/
theorem C2_counterexample :
    (Scraper.scrape_day_records true
        [[("name", Py.JVal.str "Test Event"), ("impact", Py.JVal.str "huge")]]
        [] 0).map Scraper.SRecord.impact = ["Huge"] ∧
    "Huge" ∉ Scraper.readable_impacts := by
  constructor
  · rfl
  · decide

/-- C2 witness: a JS event with a CSS impact token yields a record with
a truthy title and the canonical impact `'High'`. -/
theorem C2_witness :
    { dateTime := Scraper.PyTime.midday 0, event := Py.JVal.str "CPI",
      country := "Unknown", impact := "High", currency := Py.JVal.str "",
      actual := "N/A", forecast := "N/A", previous := "N/A",
      notice := Py.JVal.str "", hasDataValues := Py.JVal.bool false,
      hasGraph := Py.JVal.bool false, hasLinkedThreads := Py.JVal.bool false }
      ∈ Scraper.scrape_day_records true
        [[("name", Py.JVal.str "CPI"),
          ("impact", Py.JVal.str "Icon--Ff-Impact-Red")]] [] 0 ∧
    Py.jvTruthy (Py.JVal.str "CPI") = true ∧
    ("High" ∈ Scraper.readable_impacts ∨
      ∃ ed ∈ [[("name", Py.JVal.str "CPI"),
          ("impact", Py.JVal.str "Icon--Ff-Impact-Red")]],
        ∃ v, Scraper.first_direct_impact_field ed = some v ∧
          "High" = Py.title (Py.jvStr v)) := by
  refine ⟨by decide, ?_⟩
  have h := C2_record_validity true
    [[("name", Py.JVal.str "CPI"), ("impact", Py.JVal.str "Icon--Ff-Impact-Red")]]
    [] 0
    { dateTime := Scraper.PyTime.midday 0, event := Py.JVal.str "CPI",
      country := "Unknown", impact := "High", currency := Py.JVal.str "",
      actual := "N/A", forecast := "N/A", previous := "N/A",
      notice := Py.JVal.str "", hasDataValues := Py.JVal.bool false,
      hasGraph := Py.JVal.bool false, hasLinkedThreads := Py.JVal.bool false }
    (by decide)
  exact h

/-! ## Claim theorems: range partitioning (C1, C9) -/

/-- C1: for `start ≤ end` and `maxMonths ≥ 1`, `_split_into_ranges`
terminates (its loop admits the finite big-step derivation `SplitLoop`
producing exactly the returned list), the window list is non-empty, the
first window begins at `start`, each subsequent window begins the day
after the previous window's end, the last window ends at `end`, every
window's inclusive span is at most `maxMonths*30` days, and the
concatenation of the windows' days is exactly the days of
`[start, end]` in chronological order — so the windows are ordered,
pairwise non-overlapping and cover every date exactly once. -/
theorem C1_partition_coverage (s e m : Nat) (h1 : s ≤ e) (h2 : 1 ≤ m) :
    Scraper.SplitLoop m e s (Scraper.split_into_ranges s e m) ∧
    Scraper.split_into_ranges s e m ≠ [] ∧
    (Scraper.split_into_ranges s e m).head?.map Prod.fst = some s ∧
    (Scraper.split_into_ranges s e m).getLast?.map Prod.snd = some e ∧
    List.Chain' (fun a b => b.1 = a.2 + 1) (Scraper.split_into_ranges s e m) ∧
    (∀ w ∈ Scraper.split_into_ranges s e m, w.1 ≤ w.2 ∧ w.2 + 1 - w.1 ≤ m * 30) ∧
    (Scraper.split_into_ranges s e m).flatMap Scraper.windowDays =
      List.range' s (e + 1 - s) :=
  Scraper.split_ranges_aux_spec m h2 (e + 1 - s) s e h1 (Nat.le_refl _)

/-- C1 witness: a 71-day span with one-month windows. -/
theorem C1_partition_coverage_witness :
    (0 : Nat) ≤ 70 ∧ (1 : Nat) ≤ 1 ∧
    (Scraper.SplitLoop 1 70 0 (Scraper.split_into_ranges 0 70 1) ∧
      Scraper.split_into_ranges 0 70 1 ≠ [] ∧
      (Scraper.split_into_ranges 0 70 1).head?.map Prod.fst = some 0 ∧
      (Scraper.split_into_ranges 0 70 1).getLast?.map Prod.snd = some 70 ∧
      List.Chain' (fun a b => b.1 = a.2 + 1) (Scraper.split_into_ranges 0 70 1) ∧
      (∀ w ∈ Scraper.split_into_ranges 0 70 1, w.1 ≤ w.2 ∧ w.2 + 1 - w.1 ≤ 1 * 30) ∧
      (Scraper.split_into_ranges 0 70 1).flatMap Scraper.windowDays =
        List.range' 0 (70 + 1 - 0)) :=
  ⟨by decide, by decide, C1_partition_coverage 0 70 1 (by decide) (by decide)⟩

/-- C9: for an inverted span (`start > end`) the partitioner returns the
empty window list — the loop body never runs — so a range scrape over the
span processes zero windows. -/
theorem C9_inverted_span (s e m : Nat) (h : e < s) :
    Scraper.split_into_ranges s e m = [] ∧ Scraper.SplitLoop m e s [] := by
  constructor
  · exact Scraper.split_ranges_aux_of_gt m _ s e h
  · exact Scraper.SplitLoop.stop s h

/-- C9 witness: a concrete inverted span. -/
theorem C9_inverted_span_witness :
    (3 : Nat) < 5 ∧
      (Scraper.split_into_ranges 5 3 2 = [] ∧ Scraper.SplitLoop 2 3 5 []) :=
  ⟨by decide, C9_inverted_span 5 3 2 (by decide)⟩

/-! ## Support lemmas: range orchestration -/

namespace Scraper


/-- Every run of the window loop visits every window exactly once: the
two tallies grow by exactly the number of windows, whatever each window
body does — the loop never aborts. -/
theorem run_windows_total (body : Nat → Nat × Nat → Option Nat → Nat → WindowStep α) :
    ∀ (ws : List (Nat × Nat)) (i : Nat) (st : OrchState α),
      (run_windows body ws i st).successful + (run_windows body ws i st).failed =
        st.successful + st.failed + ws.length := by
  intro ws
  induction ws with
  | nil => intro i st; simp [run_windows]
  | cons w rest ih =>
    intro i st
    rcases hb : body i w st.driver st.next_id with ⟨out, used_id, driver, next_id⟩
    rcases out with evs | _
    · simp only [run_windows, hb]
      rw [ih]
      simp
      omega
    · simp only [run_windows, hb]
      rw [ih]
      simp
      omega

/-- Records accumulated before a window are never dropped by anything a
later window does. -/
theorem run_windows_events_mono
    (body : Nat → Nat × Nat → Option Nat → Nat → WindowStep α) :
    ∀ (ws : List (Nat × Nat)) (i : Nat) (st : OrchState α),
      ∃ tl, (run_windows body ws i st).events = st.events ++ tl := by
  intro ws
  induction ws with
  | nil => intro i st; exact ⟨[], by simp [run_windows]⟩
  | cons w rest ih =>
    intro i st
    rcases hb : body i w st.driver st.next_id with ⟨out, used_id, driver, next_id⟩
    rcases out with evs | _
    · obtain ⟨tl, htl⟩ := ih (i + 1)
        { events := st.events ++ evs, successful := st.successful + 1,
          failed := st.failed, driver := none, next_id := next_id,
          traces := st.traces ++ [(used_id, none)] }
      refine ⟨evs ++ tl, ?_⟩
      simp only [run_windows, hb]
      rw [htl]
      simp
    · obtain ⟨tl, htl⟩ := ih (i + 1)
        { events := st.events, successful := st.successful,
          failed := st.failed + 1, driver := driver, next_id := next_id,
          traces := st.traces ++ [(used_id, driver)] }
      refine ⟨tl, ?_⟩
      simp only [run_windows, hb]
      rw [htl]

/-- With the faithful window body every window returns normally, so each
window contributes exactly its `_scrape_range_by_days` result, counts as
successful, and the failure tally never moves. -/
theorem run_windows_composed (envs : Nat → RangeEnv α) (dayenvs : Nat → Nat → DayEnv α) :
    ∀ (ws : List (Nat × Nat)) (i : Nat) (st : OrchState α),
      (run_windows (fun i w d n => range_window_body (envs i) (dayenvs i) w d n)
          ws i st).events =
        st.events ++ (window_results envs dayenvs i ws).flatten ∧
      (run_windows (fun i w d n => range_window_body (envs i) (dayenvs i) w d n)
          ws i st).successful = st.successful + ws.length ∧
      (run_windows (fun i w d n => range_window_body (envs i) (dayenvs i) w d n)
          ws i st).failed = st.failed := by
  intro ws
  induction ws with
  | nil => intro i st; simp [run_windows, window_results]
  | cons w rest ih =>
    intro i st
    have hstep : run_windows (fun i w d n => range_window_body (envs i) (dayenvs i) w d n)
        (w :: rest) i st =
        run_windows (fun i w d n => range_window_body (envs i) (dayenvs i) w d n) rest (i + 1)
          { events := st.events ++ scrape_range_by_days_result (envs i) (dayenvs i) w.1 w.2,
            successful := st.successful + 1, failed := st.failed, driver := none,
            next_id := (range_window_body (envs i) (dayenvs i) w st.driver st.next_id).next_id,
            traces := st.traces ++
              [((range_window_body (envs i) (dayenvs i) w st.driver st.next_id).used_id,
                none)] } := rfl
    obtain ⟨he, hs, hf⟩ := ih (i + 1)
      { events := st.events ++ scrape_range_by_days_result (envs i) (dayenvs i) w.1 w.2,
        successful := st.successful + 1, failed := st.failed, driver := none,
        next_id := (range_window_body (envs i) (dayenvs i) w st.driver st.next_id).next_id,
        traces := st.traces ++
          [((range_window_body (envs i) (dayenvs i) w st.driver st.next_id).used_id, none)] }
    refine ⟨?_, ?_, ?_⟩
    · rw [hstep, he]
      simp [window_results]
    · rw [hstep, hs]
      simp
      omega
    · rw [hstep, hf]

/-- With the faithful window body, the driver is closed (`none`) at every
window boundary and every window starts on a freshly allocated session
identity, strictly larger than every identity used before. -/
theorem run_windows_rotation (envs : Nat → RangeEnv α) (dayenvs : Nat → Nat → DayEnv α) :
    ∀ (ws : List (Nat × Nat)) (i : Nat) (st : OrchState α), st.driver = none →
      ∃ tl,
        (run_windows (fun i w d n => range_window_body (envs i) (dayenvs i) w d n)
            ws i st).traces = st.traces ++ tl ∧
        (∀ p ∈ tl, p.2 = none) ∧
        List.Chain' (fun a b => a.1 < b.1) tl ∧
        (∀ p ∈ tl, st.next_id ≤ p.1) ∧
        (run_windows (fun i w d n => range_window_body (envs i) (dayenvs i) w d n)
            ws i st).driver = none := by
  intro ws
  induction ws with
  | nil =>
    intro i st hd
    exact ⟨[], by simp [run_windows], by simp, by simp, by simp,
      by simp [run_windows, hd]⟩
  | cons w rest ih =>
    intro i st hd
    have hbody : range_window_body (envs i) (dayenvs i) w st.driver st.next_id =
        ⟨.ok (scrape_range_by_days_result (envs i) (dayenvs i) w.1 w.2),
          st.next_id,
          some (if (envs i).recreations = 0 then st.next_id
            else st.next_id + 1 + (envs i).recreations - 1),
          st.next_id + 1 + (envs i).recreations⟩ := by
      unfold range_window_body
      rw [hd]
    obtain ⟨tl, htl, hnone, hchain, hbound, hdrv⟩ := ih (i + 1)
      { events := st.events ++ scrape_range_by_days_result (envs i) (dayenvs i) w.1 w.2,
        successful := st.successful + 1, failed := st.failed, driver := none,
        next_id := st.next_id + 1 + (envs i).recreations,
        traces := st.traces ++ [(st.next_id, none)] } rfl
    simp only at htl hbound
    refine ⟨(st.next_id, none) :: tl, ?_, ?_, ?_, ?_, ?_⟩
    · simp only [run_windows, hbody, htl]
      simp
    · intro p hp
      rcases List.mem_cons.mp hp with hp | hp
      · rw [hp]
      · exact hnone p hp
    · rw [List.chain'_cons']
      refine ⟨?_, hchain⟩
      intro b hb
      have hbm : b ∈ tl := List.mem_of_mem_head? hb
      have := hbound b hbm
      simp only
      omega
    · intro p hp
      rcases List.mem_cons.mp hp with hp | hp
      · rw [hp]
      · have := hbound p hp
        simp only at this ⊢
        omega
    · simp only [run_windows, hbody]
      exact hdrv

end Scraper


/-- C3 (amended): the run always completes and never aborts — the two
tallies always account for every window exactly once, whatever each
window does, and records of earlier windows are never lost.  A window
whose body raises into the orchestrator's `except` clause is counted in
the failed tally without disturbing the other windows.  With the actual
per-window body, however, every window returns normally —
`_scrape_range_by_days` catches every exception and converts navigation
failures into daily-fallback results — so each window contributes exactly
its own result independently of the other windows, the successful tally
equals the window count and the failed tally stays zero: a
navigation-failed window is counted as successful (with however many
records its fallback produced), not in the failed tally as the claim
states. -/
theorem C3_window_isolation :
    (∀ (α : Type) (body : Nat → Nat × Nat → Option Nat → Nat → Scraper.WindowStep α)
        (ws : List (Nat × Nat)) (i : Nat) (st : Scraper.OrchState α),
      (Scraper.run_windows body ws i st).successful +
          (Scraper.run_windows body ws i st).failed =
        st.successful + st.failed + ws.length) ∧
    (∀ (α : Type) (body : Nat → Nat × Nat → Option Nat → Nat → Scraper.WindowStep α)
        (ws : List (Nat × Nat)) (i : Nat) (st : Scraper.OrchState α),
      ∃ tl, (Scraper.run_windows body ws i st).events = st.events ++ tl) ∧
    (∀ (α : Type) (envs : Nat → Scraper.RangeEnv α)
        (dayenvs : Nat → Nat → Scraper.DayEnv α) (s e : Nat),
      (Scraper.scrape_date_range s e envs dayenvs).events =
        (Scraper.window_results envs dayenvs 1
          (Scraper.split_into_ranges s e 1)).flatten ∧
      (Scraper.scrape_date_range s e envs dayenvs).successful =
        (Scraper.split_into_ranges s e 1).length ∧
      (Scraper.scrape_date_range s e envs dayenvs).failed = 0) := by
  refine ⟨?_, ?_, ?_⟩
  · intro α body ws i st
    exact Scraper.run_windows_total body ws i st
  · intro α body ws i st
    exact Scraper.run_windows_events_mono body ws i st
  · intro α envs dayenvs s e
    obtain ⟨he, hs, hf⟩ := Scraper.run_windows_composed envs dayenvs
      (Scraper.split_into_ranges s e 1) 1
      { events := [], successful := 0, failed := 0, driver := none,
        next_id := 0, traces := [] }
    exact ⟨by simpa using he, by simpa using hs, by simpa using hf⟩

/-- C3 counterexample: in the concrete run, window 1's navigation fails,
yet the run reports zero failed ranges (both windows are tallied
successful) — the claim's statement that the failed window is "counted in
its failed-ranges tally" is false on the code, which only increments the
failed tally when an exception escapes `_scrape_range_by_days`, and that
function catches every exception. -/
theorem C3_counterexample :
    (c3_envs 1).nav_ok = false ∧
    (Scraper.scrape_date_range 0 59 c3_envs c3_dayenvs).events = ["evt"] ∧
    (Scraper.scrape_date_range 0 59 c3_envs c3_dayenvs).successful = 2 ∧
    (Scraper.scrape_date_range 0 59 c3_envs c3_dayenvs).failed = 0 ∧
    ¬((Scraper.scrape_date_range 0 59 c3_envs c3_dayenvs).failed = 1) := by
  refine ⟨rfl, rfl, rfl, rfl, by decide⟩

/-- C5: after every range window — and window bodies always return
normally, since `_scrape_range_by_days` absorbs exceptions — the driver
is closed (`none` at every window boundary in the trace) before the next
window begins, and the session identity in use at each window's start is
strictly larger than the previous window's, so consecutive windows never
share a handle. -/
theorem C5_session_rotation (α : Type) (envs : Nat → Scraper.RangeEnv α)
    (dayenvs : Nat → Nat → Scraper.DayEnv α) (s e : Nat) :
    (∀ tr ∈ (Scraper.scrape_date_range s e envs dayenvs).traces, tr.2 = none) ∧
    List.Chain' (fun a b => a.1 < b.1)
      (Scraper.scrape_date_range s e envs dayenvs).traces := by
  obtain ⟨tl, htl, hnone, hchain, _, _⟩ := Scraper.run_windows_rotation envs dayenvs
    (Scraper.split_into_ranges s e 1) 1
    { events := [], successful := 0, failed := 0, driver := none,
      next_id := 0, traces := [] } rfl
  have htr : (Scraper.scrape_date_range s e envs dayenvs).traces = tl := by
    unfold Scraper.scrape_date_range
    simpa using htl
  rw [htr]
  exact ⟨hnone, hchain⟩


/-- C5 witness: a concrete two-window run in which both windows close
their session (trace second components are `none`) and the two windows
use the distinct handles 0 and 1. -/
theorem C5_session_rotation_witness :
    (Scraper.scrape_date_range 0 45 c5_envs c5_dayenvs).traces =
      [(0, none), (1, none)] ∧
    ((∀ tr ∈ (Scraper.scrape_date_range 0 45 c5_envs c5_dayenvs).traces,
        tr.2 = none) ∧
      List.Chain' (fun a b => a.1 < b.1)
        (Scraper.scrape_date_range 0 45 c5_envs c5_dayenvs).traces) :=
  ⟨rfl, C5_session_rotation String c5_envs c5_dayenvs 0 45⟩

/-- C4: in range mode the per-day save step of `_scrape_day` calls
`csv_exporter.append_with_deduplication`, but `CSVExporter` defines no
such method: the call raises `AttributeError`, which the surrounding
`except` clause swallows after logging, so no batch is ever handed to the
Record Sink during the scrape — incremental persistence never happens.
The theorem shows the attribute is missing, that the save step leaves any
sink state unchanged and reports no save for every batch, and evaluates
the failing input: a non-empty annotated batch with an exporter
configured persists nothing. -/
theorem C4_incremental_persistence_bug :
    ("append_with_deduplication" ∉ Csv.csv_exporter_method_names) ∧
    (∀ (events : List Csv.Record) (st : Csv.Store),
      Csv.csv_exporter_call "append_with_deduplication" events st = none) ∧
    (∀ (events : List Csv.Record) (st : Csv.Store),
      Scraper.scrape_day_save events true st = (st, false)) ∧
    Scraper.scrape_day_save
      [{ dt := 100, event := "CPI y/y", currency := "USD", actual := "3.1" }]
      true (some []) = (some [], false) := by
  refine ⟨by decide, ?_, ?_, ?_⟩
  · intro events st
    rfl
  · intro events st
    unfold Scraper.scrape_day_save
    split_ifs with h
    · rfl
    · rfl
  · rfl


/-- C6: appending a batch and then a batch holding the same
`(DateTime, Event, Currency)` key with a different `Actual` leaves
exactly one stored record with that key, but it carries the FIRST
version's values, not the most recently appended ones: the dedup sort key
is `DateTime`, which both versions share, so the sort leaves them in
concatenation order (stored row first) and `keep='first'` retains the
pre-existing row — contradicting the code's own "keep the most recent
version" comments and the claim.  The theorem evaluates the code at the
failing input. -/
theorem C6_dedup_keeps_first_version :
    Csv.dedup_key c6_first = Csv.dedup_key c6_second ∧
    c6_first.actual = "3.1" ∧ c6_second.actual = "3.4" ∧
    c6_first ≠ c6_second ∧
    (Csv.append_events [c6_first] none).1 = some [c6_first] ∧
    (Csv.append_events [c6_second] (Csv.append_events [c6_first] none).1).1 =
      some [c6_first] ∧
    ¬((Csv.append_events [c6_second] (Csv.append_events [c6_first] none).1).1 =
      some [c6_second]) := by
  refine ⟨rfl, rfl, rfl, by decide, rfl, by decide, by decide⟩

/-- C8: the country-resolution step of `clean_countries` leaves a record
whose country is not `'Unknown'` untouched; for an `'Unknown'` record it
first matches the event title (uppercased) against the keyword table and
adopts a country of the table one of whose keywords occurs in the title;
only when no keyword of any country matches does it fall back to the
currency→country table (an unmapped currency leaves `'Unknown'`).  The
step never changes the event or currency columns. -/
theorem C8_country_resolution (r : Cleaner.Row) :
    ((Cleaner.clean_countries_row r).event = r.event ∧
      (Cleaner.clean_countries_row r).currency = r.currency) ∧
    (r.country ≠ "Unknown" → Cleaner.clean_countries_row r = r) ∧
    (r.country = "Unknown" →
      (∀ p ∈ Cleaner.event_country_keywords, Cleaner.keyword_hit r.event p = false) →
      (Cleaner.clean_countries_row r).country =
        (Py.lookupKey Cleaner.country_mapping r.currency).getD "Unknown") ∧
    (r.country = "Unknown" →
      ∀ p ∈ Cleaner.event_country_keywords, Cleaner.keyword_hit r.event p = true →
      ∃ kws, ((Cleaner.clean_countries_row r).country, kws) ∈
          Cleaner.event_country_keywords ∧
        Cleaner.keyword_hit r.event ((Cleaner.clean_countries_row r).country, kws) =
          true) := by
  by_cases hc : r.country ≠ "Unknown"
  · have hrow : Cleaner.clean_countries_row r = r := by
      unfold Cleaner.clean_countries_row
      rw [if_pos hc]
    refine ⟨⟨by rw [hrow], by rw [hrow]⟩, fun _ => hrow, ?_, ?_⟩
    · intro h; exact absurd h hc
    · intro h; exact absurd h hc
  · have hcu : r.country = "Unknown" := not_not.mp hc
    have hrow : Cleaner.clean_countries_row r =
        (match Cleaner.detect_country_from_event r.event with
         | some c => { r with country := c }
         | none =>
           match Py.lookupKey Cleaner.country_mapping r.currency with
           | some c => { r with country := c }
           | none => r) := by
      unfold Cleaner.clean_countries_row
      rw [if_neg hc]
    refine ⟨?_, ?_, ?_, ?_⟩
    · rw [hrow]
      rcases Cleaner.detect_country_from_event r.event with _ | c
      · rcases Py.lookupKey Cleaner.country_mapping r.currency with _ | c
        · exact ⟨rfl, rfl⟩
        · exact ⟨rfl, rfl⟩
      · exact ⟨rfl, rfl⟩
    · intro h; exact absurd hcu h
    · intro _ habs
      have hdet : Cleaner.detect_country_from_event r.event = none := by
        unfold Cleaner.detect_country_from_event
        rw [List.find?_eq_none.mpr]
        · rfl
        · intro p hp
          rw [habs p hp]
          simp
      rw [hrow, hdet]
      rcases hl : Py.lookupKey Cleaner.country_mapping r.currency with _ | c
      · simp [hcu]
      · simp
    · intro _ p hp hhit
      have hsome : (Cleaner.event_country_keywords.find?
          (Cleaner.keyword_hit r.event)).isSome := by
        rw [List.find?_isSome]
        exact ⟨p, hp, hhit⟩
      rcases hq : Cleaner.event_country_keywords.find? (Cleaner.keyword_hit r.event)
        with _ | q
      · rw [hq] at hsome; simp at hsome
      · have hqmem : q ∈ Cleaner.event_country_keywords := List.mem_of_find?_eq_some hq
        have hqhit : Cleaner.keyword_hit r.event q = true := List.find?_some hq
        have hdet : Cleaner.detect_country_from_event r.event = some q.1 := by
          unfold Cleaner.detect_country_from_event
          rw [hq]
          rfl
        have hctry : (Cleaner.clean_countries_row r).country = q.1 := by
          rw [hrow, hdet]
        refine ⟨q.2, ?_, ?_⟩
        · rw [hctry]
          exact hqmem
        · rw [hctry]
          unfold Cleaner.keyword_hit at hqhit ⊢
          exact hqhit

/-- C8 witness: a record titled with a Bank of England event resolves by
keyword to the United Kingdom; a record with no keyword hit falls back to
the currency table (JPY → Japan); a record already carrying a country is
untouched. -/
theorem C8_country_resolution_witness :
    (Cleaner.clean_countries_row
        ⟨"Bank of England Gov Speaks", "GBP", "Unknown"⟩).country =
      "United Kingdom" ∧
    (∃ kws, ((Cleaner.clean_countries_row
        ⟨"Bank of England Gov Speaks", "GBP", "Unknown"⟩).country, kws) ∈
          Cleaner.event_country_keywords ∧
      Cleaner.keyword_hit "Bank of England Gov Speaks"
        ((Cleaner.clean_countries_row
          ⟨"Bank of England Gov Speaks", "GBP", "Unknown"⟩).country, kws) = true) ∧
    (Cleaner.clean_countries_row ⟨"Something Plain", "JPY", "Unknown"⟩).country =
      (Py.lookupKey Cleaner.country_mapping "JPY").getD "Unknown" ∧
    Cleaner.clean_countries_row ⟨"Bank of England", "GBP", "France"⟩ =
      ⟨"Bank of England", "GBP", "France"⟩ := by
  refine ⟨by decide, ?_, ?_, ?_⟩
  · exact (C8_country_resolution
      ⟨"Bank of England Gov Speaks", "GBP", "Unknown"⟩).2.2.2 rfl
      ("United Kingdom", ["UK ", "United Kingdom", "Bank of England", "BOE",
        "British", "MPC"]) (by decide) (by decide)
  · exact (C8_country_resolution ⟨"Something Plain", "JPY", "Unknown"⟩).2.2.1 rfl
      (by decide)
  · exact (C8_country_resolution ⟨"Bank of England", "GBP", "France"⟩).2.1
      (by decide)
